import Mathlib

/-!
# N-body simulation driver (`OpenCLNBody/main.cpp`)

A model of the host program of the OpenCL n-body simulation: the launched range of the two
kernels, the per-step driver `runIteration` with its runtime calls and error checks, the
cursor callback `mouseMove`, and the initialisation of masses and velocities in `main`.

Machine integers are natural numbers or integers with explicit reduction modulo the width of
the type.  A finite `float` is the rational number it denotes, and an operation on floats is
the exact operation followed by rounding to the nearest `float`, ties to even; overflow to
infinity is not modelled, all rounded values here staying far below `2 ^ 128`.
-/

namespace NBody

/-! ## Constants and the launched range (lines 31-35 and 305, 342) -/

/-- The constant `const unsigned int number_of_particles = 1 << 10;`. -/
def number_of_particles : ℕ := (1 <<< 10) % 2 ^ 32

/-- Number of values of a `size_t` (64 bits). -/
def SIZE_RANGE : ℕ := 2 ^ 64

/-- The expression `workgroup_size * (number_of_particles / workgroup_size + 1)` of lines 305
and 342, in `size_t` arithmetic, for a non-zero work group size. -/
def global_size (workgroup_size : ℕ) : ℕ :=
  (workgroup_size * ((number_of_particles % SIZE_RANGE / workgroup_size + 1) % SIZE_RANGE))
    % SIZE_RANGE

/-- The launched range as the specification words it: `n` rounded up to a whole multiple of
`w`, that is `ceil (n / w) * w`. -/
def roundUpToMultiple (w n : ℕ) : ℕ := (n + w - 1) / w * w

/-! ## Rounding to binary floating point -/

/-- Rounding of a rational to the nearest integer, ties to the even one. -/
def roundHalfEven (t : ℚ) : ℤ :=
  if t - ⌊t⌋ < 1 / 2 then ⌊t⌋
  else if 1 / 2 < t - ⌊t⌋ then ⌊t⌋ + 1
  else if ⌊t⌋ % 2 = 0 then ⌊t⌋ else ⌊t⌋ + 1

/-- The spacing of the binary floating-point numbers with `prec` significant bits and least
normal exponent `emin` around `q`. -/
def ulp (prec : ℕ) (emin : ℤ) (q : ℚ) : ℚ :=
  2 ^ (max (Int.log 2 |q|) emin - ((prec : ℤ) - 1))

/-- Rounding of `q` to the nearest floating-point number with `prec` significant bits, ties
to even. -/
def roundBinary (prec : ℕ) (emin : ℤ) (q : ℚ) : ℚ :=
  if q = 0 then 0 else roundHalfEven (q / ulp prec emin q) * ulp prec emin q

/-- Rounding to the nearest `float` (binary32). -/
def roundF32 (q : ℚ) : ℚ := roundBinary 24 (-126) q

/-- A single-precision value held in a body field: a finite number (the rational it denotes) or
one of the special values.  `runIteration` only copies such values and creates them from
integers. -/
inductive Float32 where
  | finite (value : ℚ)
  | infinite (negative : Bool)
  | nan
deriving DecidableEq

/-- Conversion `int -> float` as in `bodies[0].x = current_mouse_x`. -/
def Float32.ofInt (n : ℤ) : Float32 := Float32.finite (roundF32 n)

/-- The structure for the bodies (`struct _body`): seven consecutive floats. -/
structure body where
  x : Float32
  y : Float32
  vx : Float32
  vy : Float32
  ax : Float32
  ay : Float32
  m : Float32
deriving DecidableEq

/-- Size in bytes of a `float`. -/
def sizeof_float : ℕ := 4

/-- Size in bytes of a `body`: seven floats without padding. -/
def sizeof_body : ℕ := 7 * sizeof_float

/-- The macro `SIZE_OF_BODIES`. -/
def SIZE_OF_BODIES : ℕ := sizeof_body * number_of_particles

/-- The floats of a body array in memory order. -/
def flatten : List body → List Float32
  | [] => []
  | b :: rest => b.x :: b.y :: b.vx :: b.vy :: b.ax :: b.ay :: b.m :: flatten rest

/-- The body array read back from consecutive floats. -/
def unflatten : List Float32 → List body
  | x :: y :: vx :: vy :: ax :: ay :: m :: rest => ⟨x, y, vx, vy, ax, ay, m⟩ :: unflatten rest
  | _ => []

/-- Copy of `size` bytes from the start of `src` over `dst` at byte offset `offset`. -/
def copyBytes (dst : List Float32) (offset size : ℕ) (src : List Float32) : List Float32 :=
  dst.take (offset / sizeof_float) ++ src.take (size / sizeof_float)
    ++ dst.drop (offset / sizeof_float + size / sizeof_float)

/-- The two kernels of the program. -/
inductive Kernel where
  | acceleration
  | integration
deriving DecidableEq

/-- The calls that `runIteration` makes to the OpenCL runtime. -/
inductive Op where
  | enqueueWriteBuffer (offset size : ℕ)
  | setKernelArg (k : Kernel) (index : ℕ)
  | getKernelWorkGroupInfo (k : Kernel)
  | enqueueNDRangeKernel (k : Kernel) (global_size workgroup_size : ℕ)
  | finish
  | enqueueReadBuffer (offset size : ℕ)
deriving DecidableEq

/-- What the OpenCL runtime answers during one step: the error code of every call, the work
group size it reports for each kernel, and the effect of each kernel on the buffer (the kernels
live in `kernels.cl`, which `runIteration` only launches). -/
structure Substrate where
  writeBufferErr : ℤ
  setKernelArgErr : Kernel → ℕ → ℤ
  workGroupInfoErr : Kernel → ℤ
  workGroupSize : Kernel → ℕ
  ndRangeErr : Kernel → ℤ
  finishErr : Kernel → ℤ
  readBufferErr : ℤ
  accelerate : ℕ → ℕ → List Float32 → List Float32
  integrate : Float32 → Float32 → ℕ → ℕ → List Float32 → List Float32

/-- The globals read or written by `runIteration` and `mouseMove`, the locals of
`runIteration`, and the list of runtime calls issued so far. -/
structure State where
  bodies : List body
  bodies_cl_memory : List Float32
  decay : Float32
  width : ℕ
  height : ℕ
  current_mouse_x : ℤ
  current_mouse_y : ℤ
  err : ℤ
  global_size : ℕ
  workgroup_size : ℕ
  issued : List Op

/-- How a run of (a part of) `runIteration` ends: it falls through, `error` prints a message
and exits the process, or the behaviour is undefined (division by a zero work group size). -/
inductive Outcome where
  | returned (s : State)
  | exited (message : String) (s : State)
  | undefined (s : State)

/-- The state in which a run ended. -/
def Outcome.state : Outcome → State
  | Outcome.returned s => s
  | Outcome.exited _ s => s
  | Outcome.undefined s => s

/-- Whether the run fell through to the end. -/
def Outcome.isReturned : Outcome → Bool
  | Outcome.returned _ => true
  | _ => false

/-- The diagnostic printed by `error`, when the run ended there. -/
def Outcome.message : Outcome → Option String
  | Outcome.exited msg _ => some msg
  | _ => none

/-- Sequencing: the next statements run only when the previous ones fell through. -/
def Outcome.andThen (o : Outcome) (f : State → Outcome) : Outcome :=
  match o with
  | Outcome.returned s => f s
  | Outcome.exited msg s => Outcome.exited msg s
  | Outcome.undefined s => Outcome.undefined s

/-- Host assignment `bodies[0].x = current_mouse_x; bodies[0].y = current_mouse_y;`. -/
def setCenter (bodies : List body) (mx my : ℤ) : List body :=
  match bodies with
  | [] => []
  | b :: rest => { b with x := Float32.ofInt mx, y := Float32.ofInt my } :: rest

/-- Lines 265-277: the locals are initialised, body 0 is moved to the mouse position on the
host, and its first two floats are uploaded. -/
def bindAnchor (cl : Substrate) (s : State) : Outcome :=
  let s := { s with err := 0, global_size := 0, workgroup_size := 0 }
  let s := { s with bodies := setCenter s.bodies s.current_mouse_x s.current_mouse_y }
  let s := { s with
    err := cl.writeBufferErr
    issued := s.issued ++ [Op.enqueueWriteBuffer 0 (sizeof_float * 2)] }
  if s.err ≠ 0 then
    Outcome.exited "Error setting the center particle position" s
  else
    Outcome.returned { s with
      bodies_cl_memory := copyBytes s.bodies_cl_memory 0 (sizeof_float * 2) (flatten s.bodies) }

/-- Lines 280-292: the four arguments of the acceleration kernel. -/
def setAccelerationArgs (cl : Substrate) (s : State) : Outcome :=
  let err := Int.lor s.err (cl.setKernelArgErr Kernel.acceleration 0)
  let err := Int.lor err (cl.setKernelArgErr Kernel.acceleration 1)
  let err := Int.lor err (cl.setKernelArgErr Kernel.acceleration 2)
  let err := Int.lor err (cl.setKernelArgErr Kernel.acceleration 3)
  let s := { s with
    err := err
    issued := s.issued ++ [Op.setKernelArg Kernel.acceleration 0,
      Op.setKernelArg Kernel.acceleration 1, Op.setKernelArg Kernel.acceleration 2,
      Op.setKernelArg Kernel.acceleration 3] }
  if s.err ≠ 0 then
    Outcome.exited "Failed to set acceleration kernel arguments" s
  else
    Outcome.returned s

/-- Lines 294-301: the work group size of the acceleration kernel. -/
def getAccelerationWorkGroup (cl : Substrate) (s : State) : Outcome :=
  let s := { s with
    err := cl.workGroupInfoErr Kernel.acceleration
    issued := s.issued ++ [Op.getKernelWorkGroupInfo Kernel.acceleration] }
  if s.err ≠ 0 then
    Outcome.exited "Error getting acceleration kernel work group size" s
  else
    Outcome.returned { s with
      workgroup_size := cl.workGroupSize Kernel.acceleration % SIZE_RANGE }

/-- Lines 303-312: the launch of the acceleration kernel. -/
def launchAcceleration (cl : Substrate) (s : State) : Outcome :=
  let s := { s with err := 0 }
  if s.workgroup_size = 0 then
    Outcome.undefined s
  else
    let s := { s with global_size := global_size s.workgroup_size }
    let s := { s with
      err := Int.lor s.err (cl.ndRangeErr Kernel.acceleration)
      issued := s.issued
        ++ [Op.enqueueNDRangeKernel Kernel.acceleration s.global_size s.workgroup_size] }
    if s.err ≠ 0 then
      Outcome.exited "Error executing acceleration kernel" s
    else
      Outcome.returned { s with
        bodies_cl_memory := cl.accelerate s.global_size s.workgroup_size s.bodies_cl_memory }

/-- Lines 314-315 and 350-351: `clFinish(queue);`, whose result is not stored. -/
def finishQueue (cl : Substrate) (k : Kernel) (s : State) : Outcome :=
  let _result := cl.finishErr k
  Outcome.returned { s with issued := s.issued ++ [Op.finish] }

/-- Lines 317-330: the four arguments of the integration kernel. -/
def setIntegrationArgs (cl : Substrate) (s : State) : Outcome :=
  let err := cl.setKernelArgErr Kernel.integration 0
  let err := Int.lor err (cl.setKernelArgErr Kernel.integration 1)
  let err := Int.lor err (cl.setKernelArgErr Kernel.integration 2)
  let err := Int.lor err (cl.setKernelArgErr Kernel.integration 3)
  let s := { s with
    err := err
    issued := s.issued ++ [Op.setKernelArg Kernel.integration 0,
      Op.setKernelArg Kernel.integration 1, Op.setKernelArg Kernel.integration 2,
      Op.setKernelArg Kernel.integration 3] }
  if s.err ≠ 0 then
    Outcome.exited "Failed to set integration kernel arguments" s
  else
    Outcome.returned s

/-- Lines 332-339: the work group size of the integration kernel. -/
def getIntegrationWorkGroup (cl : Substrate) (s : State) : Outcome :=
  let s := { s with
    err := cl.workGroupInfoErr Kernel.integration
    issued := s.issued ++ [Op.getKernelWorkGroupInfo Kernel.integration] }
  if s.err ≠ 0 then
    Outcome.exited "Error getting integration kernel work group size" s
  else
    Outcome.returned { s with
      workgroup_size := cl.workGroupSize Kernel.integration % SIZE_RANGE }

/-- Lines 341-348: the launch of the integration kernel. -/
def launchIntegration (cl : Substrate) (dt : Float32) (s : State) : Outcome :=
  if s.workgroup_size = 0 then
    Outcome.undefined s
  else
    let s := { s with global_size := global_size s.workgroup_size }
    let s := { s with
      err := cl.ndRangeErr Kernel.integration
      issued := s.issued
        ++ [Op.enqueueNDRangeKernel Kernel.integration s.global_size s.workgroup_size] }
    if s.err ≠ 0 then
      Outcome.exited "Error executing integration kernel" s
    else
      Outcome.returned { s with
        bodies_cl_memory :=
          cl.integrate dt s.decay s.global_size s.workgroup_size s.bodies_cl_memory }

/-- Lines 353-358: the whole buffer is read back into the host array. -/
def readBack (cl : Substrate) (s : State) : Outcome :=
  let s := { s with
    err := cl.readBufferErr
    issued := s.issued ++ [Op.enqueueReadBuffer 0 SIZE_OF_BODIES] }
  if s.err ≠ 0 then
    Outcome.exited "Error reading cl buffer" s
  else
    Outcome.returned { s with
      bodies := unflatten (copyBytes (flatten s.bodies) 0 SIZE_OF_BODIES s.bodies_cl_memory) }

/-- The statements of `runIteration` up to the point where the acceleration kernel is
launched (lines 265-301). -/
def untilAccelerationLaunch (cl : Substrate) (s : State) : Outcome :=
  bindAnchor cl s
    |>.andThen (setAccelerationArgs cl)
    |>.andThen (getAccelerationWorkGroup cl)

/-- The function `runIteration(float dt)`. -/
def runIteration (cl : Substrate) (s : State) (dt : Float32) : Outcome :=
  untilAccelerationLaunch cl s
    |>.andThen (launchAcceleration cl)
    |>.andThen (finishQueue cl Kernel.acceleration)
    |>.andThen (setIntegrationArgs cl)
    |>.andThen (getIntegrationWorkGroup cl)
    |>.andThen (launchIntegration cl dt)
    |>.andThen (finishQueue cl Kernel.integration)
    |>.andThen (readBack cl)

/-! ## Cursor tracking (`mouseMove`, lines 405-408) -/

/-- Number of values of an `unsigned int`. -/
def UINT_RANGE : ℕ := 2 ^ 32

/-- Conversion of an `int` to `unsigned int`. -/
def toUnsigned (i : ℤ) : ℕ := (i % (UINT_RANGE : ℤ)).toNat

/-- Conversion of an `unsigned int` to `int` (two's complement). -/
def toSigned (u : ℕ) : ℤ := if u < 2 ^ 31 then (u : ℤ) else (u : ℤ) - (UINT_RANGE : ℤ)

/-- The callback `mouseMove(int x, int y)`: `x - width / 2` and `-y + height / 2` are
evaluated in `unsigned int` (the `int` operand is converted) and stored in an `int`; the unary
minus is taken on the `int`. -/
def mouseMove (s : State) (x y : ℤ) : State :=
  { s with
    current_mouse_x := toSigned ((toUnsigned x + UINT_RANGE - s.width / 2) % UINT_RANGE)
    current_mouse_y :=
      toSigned ((toUnsigned (toSigned (toUnsigned (-y))) + s.height / 2) % UINT_RANGE) }

/-! ## Initialisation of the bodies (`main`, lines 76-79 and 90-137) -/

/-- Lines 119-129: the velocity given to body `i` at `(xi, yi)` around body 0 at `(x0, y0)` of
mass `m0`, over any field with a square root function. -/
def orbitVelocity {α : Type} [Field α] (sqrt : α → α) (G m0 x0 y0 xi yi : α) : α × α :=
  let dx := xi - x0
  let dy := yi - y0
  let r := sqrt (dx * dx + dy * dy)
  let ve := sqrt (G * m0 / r)
  (ve * dy / r, ve * -dx / r)

/-! ## Sample inputs -/

/-- A runtime in which every call succeeds, both kernels report a work group size of 256 and
leave the buffer as it is. -/
def okSubstrate : Substrate where
  writeBufferErr := 0
  setKernelArgErr := fun _ _ => 0
  workGroupInfoErr := fun _ => 0
  workGroupSize := fun _ => 256
  ndRangeErr := fun _ => 0
  finishErr := fun _ => 0
  readBufferErr := 0
  accelerate := fun _ _ mem => mem
  integrate := fun _ _ _ _ mem => mem

/-- A body at rest at the origin with mass 1. -/
def restBody : body :=
  ⟨Float32.finite 0, Float32.finite 0, Float32.finite 0, Float32.finite 0, Float32.finite 0,
    Float32.finite 0, Float32.finite 1⟩

/-- A program state with `number_of_particles` bodies at rest, mirrored in the buffer, a
window of 1000 by 600 and the mouse at `(mx, my)`. -/
def startState (mx my : ℤ) : State where
  bodies := List.replicate number_of_particles restBody
  bodies_cl_memory := flatten (List.replicate number_of_particles restBody)
  decay := Float32.finite 1
  width := 1000
  height := 600
  current_mouse_x := mx
  current_mouse_y := my
  err := 0
  global_size := 0
  workgroup_size := 0
  issued := []

/-- The state in which `runIteration` reaches the launch of the acceleration kernel. -/
def atAccelerationLaunch (cl : Substrate) (s : State) : State :=
  (untilAccelerationLaunch cl s).state

/-- The calls that put a command or a barrier on the queue (transfers, launches, `clFinish`),
as opposed to argument sets and queries. -/
def Op.isCommand : Op → Bool
  | Op.enqueueWriteBuffer _ _ => true
  | Op.enqueueNDRangeKernel _ _ _ => true
  | Op.finish => true
  | Op.enqueueReadBuffer _ _ => true
  | Op.setKernelArg _ _ => false
  | Op.getKernelWorkGroupInfo _ => false

/-- Whether the call launches the given kernel. -/
def Op.launches (k : Kernel) : Op → Bool
  | Op.enqueueNDRangeKernel k2 _ _ => decide (k2 = k)
  | _ => false

/-- The work group size stored by `runIteration` for a kernel. -/
def storedWorkGroupSize (cl : Substrate) (k : Kernel) : ℕ := cl.workGroupSize k % SIZE_RANGE

/-- All checks of a step pass exactly when every checked call returns zero and both reported
work group sizes are non-zero. -/
def allChecksPass (cl : Substrate) : Prop :=
  cl.writeBufferErr = 0 ∧
  (cl.setKernelArgErr Kernel.acceleration 0 = 0 ∧ cl.setKernelArgErr Kernel.acceleration 1 = 0 ∧
    cl.setKernelArgErr Kernel.acceleration 2 = 0 ∧ cl.setKernelArgErr Kernel.acceleration 3 = 0) ∧
  cl.workGroupInfoErr Kernel.acceleration = 0 ∧
  storedWorkGroupSize cl Kernel.acceleration ≠ 0 ∧
  cl.ndRangeErr Kernel.acceleration = 0 ∧
  (cl.setKernelArgErr Kernel.integration 0 = 0 ∧ cl.setKernelArgErr Kernel.integration 1 = 0 ∧
    cl.setKernelArgErr Kernel.integration 2 = 0 ∧ cl.setKernelArgErr Kernel.integration 3 = 0) ∧
  cl.workGroupInfoErr Kernel.integration = 0 ∧
  storedWorkGroupSize cl Kernel.integration ≠ 0 ∧
  cl.ndRangeErr Kernel.integration = 0 ∧
  cl.readBufferErr = 0

/-- The eight places of `runIteration` where `err` is tested. -/
inductive Stage where
  | anchorUpload
  | accelerationArgs
  | accelerationWorkGroup
  | accelerationLaunch
  | integrationArgs
  | integrationWorkGroup
  | integrationLaunch
  | download
deriving DecidableEq

/-- Position of a stage in the program text. -/
def Stage.index : Stage → ℕ
  | Stage.anchorUpload => 0
  | Stage.accelerationArgs => 1
  | Stage.accelerationWorkGroup => 2
  | Stage.accelerationLaunch => 3
  | Stage.integrationArgs => 4
  | Stage.integrationWorkGroup => 5
  | Stage.integrationLaunch => 6
  | Stage.download => 7

/-- The diagnostic passed to `error` at each stage. -/
def Stage.message : Stage → String
  | Stage.anchorUpload => "Error setting the center particle position"
  | Stage.accelerationArgs => "Failed to set acceleration kernel arguments"
  | Stage.accelerationWorkGroup => "Error getting acceleration kernel work group size"
  | Stage.accelerationLaunch => "Error executing acceleration kernel"
  | Stage.integrationArgs => "Failed to set integration kernel arguments"
  | Stage.integrationWorkGroup => "Error getting integration kernel work group size"
  | Stage.integrationLaunch => "Error executing integration kernel"
  | Stage.download => "Error reading cl buffer"

/-- One of the four argument sets of a kernel returns a non-zero code. -/
def argsFail (cl : Substrate) (k : Kernel) : Prop :=
  cl.setKernelArgErr k 0 ≠ 0 ∨ cl.setKernelArgErr k 1 ≠ 0 ∨ cl.setKernelArgErr k 2 ≠ 0 ∨
    cl.setKernelArgErr k 3 ≠ 0

/-- A call of the stage returns a non-zero error code. -/
def stageFails (cl : Substrate) : Stage → Prop
  | Stage.anchorUpload => cl.writeBufferErr ≠ 0
  | Stage.accelerationArgs => argsFail cl Kernel.acceleration
  | Stage.accelerationWorkGroup => cl.workGroupInfoErr Kernel.acceleration ≠ 0
  | Stage.accelerationLaunch => cl.ndRangeErr Kernel.acceleration ≠ 0
  | Stage.integrationArgs => argsFail cl Kernel.integration
  | Stage.integrationWorkGroup => cl.workGroupInfoErr Kernel.integration ≠ 0
  | Stage.integrationLaunch => cl.ndRangeErr Kernel.integration ≠ 0
  | Stage.download => cl.readBufferErr ≠ 0

instance (cl : Substrate) (k : Kernel) : Decidable (argsFail cl k) := by
  unfold argsFail; infer_instance

instance (cl : Substrate) (st : Stage) : Decidable (stageFails cl st) := by
  cases st <;> unfold stageFails <;> infer_instance

/-- The four argument sets of a kernel. -/
def argOps (k : Kernel) : List Op :=
  [Op.setKernelArg k 0, Op.setKernelArg k 1, Op.setKernelArg k 2, Op.setKernelArg k 3]

/-- The launch of a kernel with the range computed from the stored work group size. -/
def launchOp (cl : Substrate) (k : Kernel) : Op :=
  Op.enqueueNDRangeKernel k (global_size (storedWorkGroupSize cl k)) (storedWorkGroupSize cl k)

/-- The calls made between the previous test of `err` and the test of a stage; the barrier
after a launch precedes the next calls. -/
def stageOps (cl : Substrate) : Stage → List Op
  | Stage.anchorUpload => [Op.enqueueWriteBuffer 0 (sizeof_float * 2)]
  | Stage.accelerationArgs => argOps Kernel.acceleration
  | Stage.accelerationWorkGroup => [Op.getKernelWorkGroupInfo Kernel.acceleration]
  | Stage.accelerationLaunch => [launchOp cl Kernel.acceleration]
  | Stage.integrationArgs => Op.finish :: argOps Kernel.integration
  | Stage.integrationWorkGroup => [Op.getKernelWorkGroupInfo Kernel.integration]
  | Stage.integrationLaunch => [launchOp cl Kernel.integration]
  | Stage.download => [Op.finish, Op.enqueueReadBuffer 0 SIZE_OF_BODIES]

/-- The stages in program order. -/
def Stage.all : List Stage :=
  [Stage.anchorUpload, Stage.accelerationArgs, Stage.accelerationWorkGroup,
    Stage.accelerationLaunch, Stage.integrationArgs, Stage.integrationWorkGroup,
    Stage.integrationLaunch, Stage.download]

/-- The calls of a step from its start up to and including the calls of a stage, and none of
a later stage. -/
def issuedThrough (cl : Substrate) (st : Stage) : List Op :=
  (Stage.all.filter fun t => decide (t.index ≤ st.index)).foldr
    (fun t acc => stageOps cl t ++ acc) []

/-- The calls issued by one run of `runIteration`, without those issued before it. -/
def stepCalls (cl : Substrate) (s : State) (dt : Float32) : List Op :=
  (runIteration cl s dt).state.issued.drop s.issued.length

/-- A runtime in which only the first argument set of the acceleration kernel fails
(with `CL_INVALID_KERNEL`). -/
def argFailSubstrate : Substrate :=
  { okSubstrate with
    setKernelArgErr := fun k i =>
      match k, i with
      | Kernel.acceleration, 0 => -48
      | _, _ => 0 }

/-- A runtime in which only the kernel launches fail (with `CL_INVALID_WORK_GROUP_SIZE`). -/
def launchFailSubstrate : Substrate :=
  { okSubstrate with ndRangeErr := fun _ => -54 }

/-- A runtime in which only the barriers fail (with `CL_OUT_OF_RESOURCES`). -/
def barrierFailSubstrate : Substrate :=
  { okSubstrate with finishErr := fun _ => -5 }

/-! ## Properties of rounding -/

theorem roundHalfEven_intCast (k : ℤ) : roundHalfEven (k : ℚ) = k := by
  simp [roundHalfEven]

theorem ulp_pos (prec : ℕ) (emin : ℤ) (q : ℚ) : 0 < ulp prec emin q := by
  unfold ulp; positivity

theorem roundBinary_zero (prec : ℕ) (emin : ℤ) : roundBinary prec emin 0 = 0 := by
  simp [roundBinary]

/-- A value whose quotient by its unit in the last place is an integer is representable. -/
theorem roundBinary_of_integral (prec : ℕ) (emin : ℤ) (q : ℚ) (k : ℤ)
    (h : q = k * ulp prec emin q) : roundBinary prec emin q = q := by
  unfold roundBinary
  split_ifs with h0
  · exact h0.symm
  · have hu := ulp_pos prec emin q
    have : q / ulp prec emin q = (k : ℚ) := by
      rw [div_eq_iff hu.ne']; exact h
    rw [this, roundHalfEven_intCast]; exact h.symm

theorem log_eq_of_bounds {q : ℚ} {e : ℤ} (hlo : (2 : ℚ) ^ e ≤ q) (hhi : q < (2 : ℚ) ^ (e + 1)) :
    Int.log 2 q = e := by
  have hq : 0 < q := lt_of_lt_of_le (by positivity) hlo
  have h1 : e ≤ Int.log 2 q := (Int.zpow_le_iff_le_log (by norm_num) hq).mp (by exact_mod_cast hlo)
  have h2 : Int.log 2 q < e + 1 := (Int.lt_zpow_iff_log_lt (by norm_num) hq).mp (by exact_mod_cast hhi)
  omega

theorem ulp_of_pos (prec : ℕ) (emin : ℤ) {q : ℚ} (hq : 0 < q) :
    ulp prec emin q = (2 : ℚ) ^ (max (Int.log 2 q) emin - ((prec : ℤ) - 1)) := by
  unfold ulp; rw [abs_of_pos hq]

theorem roundBinary_of_pos (prec : ℕ) (emin : ℤ) {q : ℚ} (hq : 0 < q) :
    roundBinary prec emin q = roundHalfEven (q / ulp prec emin q) * ulp prec emin q := by
  unfold roundBinary; rw [if_neg hq.ne']

/-- Integers of magnitude at most `2 ^ prec` are representable. -/
theorem roundBinary_intCast (prec : ℕ) (emin : ℤ) (hprec : 1 ≤ prec) (hemin : emin ≤ 0)
    (n : ℤ) (hn : n.natAbs ≤ 2 ^ prec) : roundBinary prec emin (n : ℚ) = n := by
  rcases eq_or_ne n 0 with h0 | h0
  · rw [h0, Int.cast_zero, roundBinary_zero]
  have habs : |(n : ℚ)| = ((n.natAbs : ℕ) : ℚ) := by
    rw [Nat.cast_natAbs, Int.cast_abs]
  have hlogle : Nat.log 2 n.natAbs ≤ prec := by
    calc Nat.log 2 n.natAbs ≤ Nat.log 2 (2 ^ prec) := Nat.log_mono_right hn
      _ = prec := Nat.log_pow (by norm_num) prec
  have hpowle : 2 ^ Nat.log 2 n.natAbs ≤ n.natAbs :=
    Nat.pow_log_le_self 2 (Int.natAbs_ne_zero.mpr h0)
  have hulp : ulp prec emin (n : ℚ)
      = (2 : ℚ) ^ ((Nat.log 2 n.natAbs : ℤ) - ((prec : ℤ) - 1)) := by
    unfold ulp
    rw [habs, Int.log_natCast, max_eq_left (le_trans hemin (Int.natCast_nonneg _))]
  rcases lt_or_eq_of_le hlogle with hlt | heq
  · apply roundBinary_of_integral prec emin (n : ℚ) (n * 2 ^ (prec - 1 - Nat.log 2 n.natAbs))
    rw [hulp]
    push_cast
    rw [mul_assoc, ← zpow_natCast, ← zpow_add₀ (by norm_num)]
    have : ((prec - 1 - Nat.log 2 n.natAbs : ℕ) : ℤ)
        + ((Nat.log 2 n.natAbs : ℤ) - ((prec : ℤ) - 1)) = 0 := by omega
    rw [this]; simp
  · have hnat : n.natAbs = 2 ^ prec := le_antisymm hn (by rw [heq] at hpowle; exact hpowle)
    have hdvd : (2 : ℤ) ∣ n := by
      have : (2 : ℕ) ∣ n.natAbs := by
        rw [hnat]; exact dvd_pow_self 2 (by omega)
      exact_mod_cast Int.natCast_dvd.mpr this
    apply roundBinary_of_integral prec emin (n : ℚ) (n / 2)
    rw [hulp, heq]
    have : ((prec : ℤ) - ((prec : ℤ) - 1)) = 1 := by ring
    rw [this, zpow_one]
    have h2 : n = n / 2 * 2 := (Int.ediv_mul_cancel hdvd).symm
    exact_mod_cast h2

theorem roundBinary_eval (prec : ℕ) (emin : ℤ) {q : ℚ} (e : ℤ) (hlo : (2 : ℚ) ^ e ≤ q)
    (hhi : q < (2 : ℚ) ^ (e + 1)) (he : emin ≤ e) :
    roundBinary prec emin q
      = roundHalfEven (q / 2 ^ (e - ((prec : ℤ) - 1))) * 2 ^ (e - ((prec : ℤ) - 1)) := by
  have hq : 0 < q := lt_of_lt_of_le (by positivity) hlo
  rw [roundBinary_of_pos prec emin hq, ulp_of_pos prec emin hq, log_eq_of_bounds hlo hhi,
    max_eq_left he]

theorem roundHalfEven_eval (t : ℚ) (f : ℤ) (hlo : (f : ℚ) ≤ t) (hhi : t < f + 1) :
    roundHalfEven t = if t - f < 1 / 2 then f else if 1 / 2 < t - f then f + 1
      else if f % 2 = 0 then f else f + 1 := by
  have hf : ⌊t⌋ = f := Int.floor_eq_iff.mpr ⟨hlo, hhi⟩
  unfold roundHalfEven
  rw [hf]

/-! ## The launched range -/

theorem number_of_particles_eq : number_of_particles = 1024 := by decide

theorem global_size_eq (w : ℕ) (hw1 : 1 ≤ w) (hw : w < SIZE_RANGE) :
    global_size w = w * (number_of_particles / w + 1) := by
  unfold global_size
  rw [number_of_particles_eq]
  unfold SIZE_RANGE at *
  have h1 : 1024 % 2 ^ 64 = 1024 := by norm_num
  rw [h1]
  have hq : 1024 / w ≤ 1024 := Nat.div_le_self _ _
  have h2 : (1024 / w + 1) % 2 ^ 64 = 1024 / w + 1 := Nat.mod_eq_of_lt (by omega)
  rw [h2]
  apply Nat.mod_eq_of_lt
  by_cases hc : w ≤ 1024
  · have : w * (1024 / w) ≤ 1024 := Nat.mul_div_le 1024 w
    have : w * (1024 / w + 1) = w * (1024 / w) + w := by ring
    omega
  · have : 1024 / w = 0 := Nat.div_eq_of_lt (by omega)
    rw [this]; omega

theorem lt_mul_div_succ (n w : ℕ) (hw1 : 1 ≤ w) : n < w * (n / w + 1) := by
  have := Nat.lt_div_mul_add (a := n) (b := w) (by omega)
  have h2 : w * (n / w + 1) = n / w * w + w := by ring
  omega

theorem launched_range_bounds (w : ℕ) (hw1 : 1 ≤ w) (hw : w < SIZE_RANGE) :
    number_of_particles ≤ global_size w := by
  rw [global_size_eq w hw1 hw]
  exact (lt_mul_div_succ _ w hw1).le

/-- C1: for a work group size `w` with `1 <= w < 2 ^ 64`, the launched range
`global_size = w * (N / w + 1)` is computed without wraparound, is a whole multiple of `w` and
is at least `N = number_of_particles`. -/
theorem launched_range_covers_all_bodies (w : ℕ) (hw1 : 1 ≤ w) (hw : w < SIZE_RANGE) :
    global_size w = w * (number_of_particles / w + 1) ∧
    w ∣ global_size w ∧ number_of_particles ≤ global_size w := by
  rw [global_size_eq w hw1 hw]
  exact ⟨rfl, Dvd.intro _ rfl, (lt_mul_div_succ _ w hw1).le⟩

theorem launched_range_covers_all_bodies_witness :
    (1 ≤ 256 ∧ 256 < SIZE_RANGE) ∧
    (global_size 256 = 256 * (number_of_particles / 256 + 1) ∧
      256 ∣ global_size 256 ∧ number_of_particles ≤ global_size 256) :=
  ⟨by decide, launched_range_covers_all_bodies 256 (by decide) (by decide)⟩

/-- C2, as stated, fails: the work group size 256 divides `N = 1024`, and the launched range is
1280 and not `N` rounded up to a multiple of 256, which is 1024. -/
theorem launched_range_not_least_multiple :
    256 ∣ number_of_particles ∧ roundUpToMultiple 256 number_of_particles = number_of_particles ∧
    global_size 256 = 1280 ∧ global_size 256 ≠ roundUpToMultiple 256 number_of_particles := by
  decide

/-- C2, amended: for `1 <= w < 2 ^ 64` the launched range is the least multiple of `w` that is
strictly greater than `N`; it is `N` rounded up to a multiple of `w` when `w` does not divide
`N`, and `N + w` when it does. -/
theorem launched_range_least_multiple_above (w : ℕ) (hw1 : 1 ≤ w) (hw : w < SIZE_RANGE) :
    w ∣ global_size w ∧ number_of_particles < global_size w ∧
    (∀ m, w ∣ m → number_of_particles < m → global_size w ≤ m) ∧
    (¬ w ∣ number_of_particles → global_size w = roundUpToMultiple w number_of_particles) ∧
    (w ∣ number_of_particles → global_size w = number_of_particles + w) := by
  rw [global_size_eq w hw1 hw]
  refine ⟨Dvd.intro _ rfl, lt_mul_div_succ _ w hw1, ?_, ?_, ?_⟩
  · rintro m ⟨k, rfl⟩ hlt
    apply Nat.mul_le_mul_left
    have : number_of_particles / w < k := (Nat.div_lt_iff_lt_mul (by omega)).mpr (by
      rw [Nat.mul_comm]; exact hlt)
    omega
  · intro hnd
    unfold roundUpToMultiple
    have hmod : number_of_particles % w ≠ 0 := fun h => hnd (Nat.dvd_of_mod_eq_zero h)
    have hlt : number_of_particles % w < w := Nat.mod_lt _ (by omega)
    have hsplit := Nat.div_add_mod number_of_particles w
    have hrw : number_of_particles + w - 1
        = (number_of_particles % w - 1) + w * (number_of_particles / w + 1) := by
      have : w * (number_of_particles / w + 1) = w * (number_of_particles / w) + w := by ring
      omega
    have hsmall : number_of_particles % w - 1 < w := by omega
    have hwpos : 0 < w := by omega
    rw [hrw, Nat.add_mul_div_left _ _ hwpos, Nat.div_eq_of_lt hsmall]
    ring
  · intro hd
    have := Nat.mul_div_cancel' hd
    have h2 : w * (number_of_particles / w + 1) = w * (number_of_particles / w) + w := by ring
    omega

theorem launched_range_least_multiple_above_witness :
    (1 ≤ 256 ∧ 256 < SIZE_RANGE) ∧
    (256 ∣ global_size 256 ∧ number_of_particles < global_size 256 ∧
      (∀ m, 256 ∣ m → number_of_particles < m → global_size 256 ≤ m) ∧
      (¬ 256 ∣ number_of_particles → global_size 256 = roundUpToMultiple 256 number_of_particles) ∧
      (256 ∣ number_of_particles → global_size 256 = number_of_particles + 256)) :=
  ⟨by decide, launched_range_least_multiple_above 256 (by decide) (by decide)⟩

/-! ## Sequencing -/

theorem andThen_returned (s : State) (f : State → Outcome) :
    (Outcome.returned s).andThen f = f s := rfl

theorem andThen_exited (msg : String) (s : State) (f : State → Outcome) :
    (Outcome.exited msg s).andThen f = Outcome.exited msg s := rfl

theorem andThen_undefined (s : State) (f : State → Outcome) :
    (Outcome.undefined s).andThen f = Outcome.undefined s := rfl

theorem isReturned_iff (o : Outcome) : o.isReturned = true ↔ o = Outcome.returned o.state := by
  cases o <;> simp [Outcome.isReturned, Outcome.state]

theorem andThen_isReturned (o : Outcome) (f : State → Outcome)
    (h : (o.andThen f).isReturned = true) :
    o.isReturned = true ∧ o.andThen f = f o.state := by
  cases o with
  | returned t => exact ⟨rfl, rfl⟩
  | exited msg t => simp [Outcome.andThen, Outcome.isReturned] at h
  | undefined t => simp [Outcome.andThen, Outcome.isReturned] at h

/-! ## Anchor binding -/

theorem setCenter_cons (b : body) (rest : List body) (mx my : ℤ) :
    setCenter (b :: rest) mx my
      = { b with x := Float32.ofInt mx, y := Float32.ofInt my } :: rest := rfl

theorem bindAnchor_state (cl : Substrate) (s : State)
    (h : (bindAnchor cl s).isReturned = true) :
    (bindAnchor cl s).state.bodies = setCenter s.bodies s.current_mouse_x s.current_mouse_y ∧
    (bindAnchor cl s).state.bodies_cl_memory
      = copyBytes s.bodies_cl_memory 0 (sizeof_float * 2)
          (flatten (setCenter s.bodies s.current_mouse_x s.current_mouse_y)) := by
  unfold bindAnchor at *
  simp only at *
  split_ifs at * with herr
  · simp [Outcome.isReturned] at h
  · simp [Outcome.state]

theorem setAccelerationArgs_memory (cl : Substrate) (s : State) :
    (setAccelerationArgs cl s).state.bodies = s.bodies ∧
    (setAccelerationArgs cl s).state.bodies_cl_memory = s.bodies_cl_memory := by
  unfold setAccelerationArgs
  simp only
  split_ifs <;> simp [Outcome.state]

theorem getAccelerationWorkGroup_memory (cl : Substrate) (s : State) :
    (getAccelerationWorkGroup cl s).state.bodies = s.bodies ∧
    (getAccelerationWorkGroup cl s).state.bodies_cl_memory = s.bodies_cl_memory := by
  unfold getAccelerationWorkGroup
  simp only
  split_ifs <;> simp [Outcome.state]

theorem untilAccelerationLaunch_state (cl : Substrate) (s : State)
    (h : (untilAccelerationLaunch cl s).isReturned = true) :
    (untilAccelerationLaunch cl s).state.bodies
      = setCenter s.bodies s.current_mouse_x s.current_mouse_y ∧
    (untilAccelerationLaunch cl s).state.bodies_cl_memory
      = copyBytes s.bodies_cl_memory 0 (sizeof_float * 2)
          (flatten (setCenter s.bodies s.current_mouse_x s.current_mouse_y)) := by
  unfold untilAccelerationLaunch at *
  obtain ⟨h1, e1⟩ := andThen_isReturned _ _ h
  obtain ⟨h2, e2⟩ := andThen_isReturned _ _ h1
  obtain ⟨hb, hm⟩ := bindAnchor_state cl s h2
  rw [e1, e2]
  obtain ⟨a1, a2⟩ := getAccelerationWorkGroup_memory cl
    (setAccelerationArgs cl (bindAnchor cl s).state).state
  obtain ⟨b1, b2⟩ := setAccelerationArgs_memory cl (bindAnchor cl s).state
  rw [a1, a2, b1, b2, hb, hm]
  exact ⟨rfl, rfl⟩

theorem flatten_length (bs : List body) : (flatten bs).length = 7 * bs.length := by
  induction bs with
  | nil => rfl
  | cons b rest ih => simp only [flatten, List.length_cons, ih]; omega

theorem copyBytes_anchor (mem src : List Float32) :
    copyBytes mem 0 (sizeof_float * 2) src = src.take 2 ++ mem.drop 2 := by
  simp [copyBytes, sizeof_float]

theorem startState_bodies_length (mx my : ℤ) :
    (startState mx my).bodies.length = number_of_particles := by
  simp [startState]

theorem startState_memory_length (mx my : ℤ) :
    (startState mx my).bodies_cl_memory.length = 7 * number_of_particles := by
  simp [startState, flatten_length]

theorem okSubstrate_reaches_launch (mx my : ℤ) :
    (untilAccelerationLaunch okSubstrate (startState mx my)).isReturned = true := by
  rfl

theorem exists_seven_of_length (mem : List Float32) (h : 7 ≤ mem.length) :
    ∃ a0 a1 a2 a3 a4 a5 a6 rest, mem = a0 :: a1 :: a2 :: a3 :: a4 :: a5 :: a6 :: rest := by
  match mem, h with
  | a0 :: a1 :: a2 :: a3 :: a4 :: a5 :: a6 :: rest, _ => exact ⟨a0, a1, a2, a3, a4, a5, a6, rest, rfl⟩

theorem exists_cons_of_length (bs : List body) (h : 1 ≤ bs.length) :
    ∃ b rest, bs = b :: rest := by
  match bs, h with
  | b :: rest, _ => exact ⟨b, rest, rfl⟩

/-- The state reached at the launch, for a well-formed state: body 0 moved on the host, and
its two position floats replaced in the buffer. -/
theorem anchored_shape (s : State) (hb : s.bodies.length = number_of_particles)
    (hm : s.bodies_cl_memory.length = 7 * number_of_particles) :
    ∃ b rest a0 a1 a2 a3 a4 a5 a6 tl,
      s.bodies = b :: rest ∧
      s.bodies_cl_memory = a0 :: a1 :: a2 :: a3 :: a4 :: a5 :: a6 :: tl ∧
      setCenter s.bodies s.current_mouse_x s.current_mouse_y
        = { b with x := Float32.ofInt s.current_mouse_x, y := Float32.ofInt s.current_mouse_y }
            :: rest ∧
      copyBytes s.bodies_cl_memory 0 (sizeof_float * 2)
          (flatten (setCenter s.bodies s.current_mouse_x s.current_mouse_y))
        = Float32.ofInt s.current_mouse_x :: Float32.ofInt s.current_mouse_y
            :: a2 :: a3 :: a4 :: a5 :: a6 :: tl := by
  rw [number_of_particles_eq] at hb hm
  obtain ⟨b, rest, hbs⟩ := exists_cons_of_length s.bodies (by omega)
  obtain ⟨a0, a1, a2, a3, a4, a5, a6, tl, hms⟩ :=
    exists_seven_of_length s.bodies_cl_memory (by omega)
  refine ⟨b, rest, a0, a1, a2, a3, a4, a5, a6, tl, hbs, hms, ?_, ?_⟩
  · rw [hbs]; rfl
  · rw [hbs, hms, copyBytes_anchor]; rfl

/-- C3, as stated, fails: with the anchor `(16777217, 0)` the launch of the acceleration kernel
is reached with body 0 at x = 16777216, on the host and in the buffer, because 16777217 is not
a `float`. -/
theorem anchor_not_exact_beyond_float_precision :
    (untilAccelerationLaunch okSubstrate (startState 16777217 0)).isReturned = true ∧
    (atAccelerationLaunch okSubstrate (startState 16777217 0)).bodies.head?.map body.x
      = some (Float32.finite 16777216) ∧
    (atAccelerationLaunch okSubstrate (startState 16777217 0)).bodies_cl_memory.head?
      = some (Float32.finite 16777216) ∧
    Float32.finite 16777216 ≠ Float32.finite ((16777217 : ℤ) : ℚ) := by
  have h : roundF32 16777217 = 16777216 := by
    unfold roundF32
    rw [roundBinary_eval 24 (-126) 24 (by norm_num) (by norm_num) (by norm_num)]
    rw [roundHalfEven_eval _ 8388608 (by norm_num) (by norm_num)]
    norm_num
  have hof : Float32.ofInt 16777217 = Float32.finite 16777216 := by
    unfold Float32.ofInt
    rw [show ((16777217 : ℤ) : ℚ) = 16777217 by norm_num, h]
  obtain ⟨hb, hm⟩ := untilAccelerationLaunch_state okSubstrate (startState 16777217 0)
    (okSubstrate_reaches_launch _ _)
  obtain ⟨b, rest, a0, a1, a2, a3, a4, a5, a6, tl, -, -, e1, e2⟩ :=
    anchored_shape (startState 16777217 0) (startState_bodies_length _ _)
      (startState_memory_length _ _)
  refine ⟨okSubstrate_reaches_launch _ _, ?_, ?_, ?_⟩
  · unfold atAccelerationLaunch
    rw [hb, e1]
    simp only [List.head?_cons, Option.map_some']
    exact congrArg some hof
  · unfold atAccelerationLaunch
    rw [hm, e2]
    simp only [List.head?_cons]
    exact congrArg some hof
  · intro hc
    injection hc with hc
    norm_num at hc

theorem ofInt_exact (n : ℤ) (hn : n.natAbs ≤ 2 ^ 24) : Float32.ofInt n = Float32.finite n := by
  unfold Float32.ofInt roundF32
  rw [roundBinary_intCast 24 (-126) (by norm_num) (by norm_num) n hn]

/-- C3, amended: from every well-formed state and for every anchor
`(px, py) = (current_mouse_x, current_mouse_y)`, when `runIteration` reaches the launch of the
acceleration kernel body 0 is at the `float` conversion of `(px, py)` in the host array and in
the buffer (floats 0 and 1, the x and y of the first body); that conversion is `(px, py)`
itself when `|px|` and `|py|` are at most `2 ^ 24`; and the launch hands exactly this buffer to
the kernel. -/
theorem anchor_position_at_launch (cl : Substrate) (s : State)
    (hb : s.bodies.length = number_of_particles)
    (hm : s.bodies_cl_memory.length = 7 * number_of_particles)
    (h : (untilAccelerationLaunch cl s).isReturned = true) :
    (atAccelerationLaunch cl s).bodies.head?.map body.x
      = some (Float32.ofInt s.current_mouse_x) ∧
    (atAccelerationLaunch cl s).bodies.head?.map body.y
      = some (Float32.ofInt s.current_mouse_y) ∧
    (atAccelerationLaunch cl s).bodies_cl_memory[0]? = some (Float32.ofInt s.current_mouse_x) ∧
    (atAccelerationLaunch cl s).bodies_cl_memory[1]? = some (Float32.ofInt s.current_mouse_y) ∧
    (unflatten (atAccelerationLaunch cl s).bodies_cl_memory).head?.map body.x
      = some (Float32.ofInt s.current_mouse_x) ∧
    (unflatten (atAccelerationLaunch cl s).bodies_cl_memory).head?.map body.y
      = some (Float32.ofInt s.current_mouse_y) ∧
    (s.current_mouse_x.natAbs ≤ 2 ^ 24 →
      Float32.ofInt s.current_mouse_x = Float32.finite s.current_mouse_x) ∧
    (s.current_mouse_y.natAbs ≤ 2 ^ 24 →
      Float32.ofInt s.current_mouse_y = Float32.finite s.current_mouse_y) ∧
    ((launchAcceleration cl (atAccelerationLaunch cl s)).isReturned = true →
      (launchAcceleration cl (atAccelerationLaunch cl s)).state.bodies_cl_memory
        = cl.accelerate (global_size (atAccelerationLaunch cl s).workgroup_size)
            (atAccelerationLaunch cl s).workgroup_size
            (atAccelerationLaunch cl s).bodies_cl_memory) := by
  obtain ⟨e1, e2⟩ := untilAccelerationLaunch_state cl s h
  obtain ⟨b, rest, a0, a1, a2, a3, a4, a5, a6, tl, -, -, c1, c2⟩ := anchored_shape s hb hm
  refine ⟨?_, ?_, ?_, ?_, ?_, ?_, ofInt_exact _, ofInt_exact _, ?_⟩
  · unfold atAccelerationLaunch; rw [e1, c1]; rfl
  · unfold atAccelerationLaunch; rw [e1, c1]; rfl
  · unfold atAccelerationLaunch; rw [e2, c2]; rfl
  · unfold atAccelerationLaunch; rw [e2, c2]; rfl
  · unfold atAccelerationLaunch; rw [e2, c2]; rfl
  · unfold atAccelerationLaunch; rw [e2, c2]; rfl
  · intro hl
    unfold launchAcceleration at *
    simp only at *
    split_ifs at * with hw herr
    · simp [Outcome.isReturned] at hl
    · simp [Outcome.isReturned] at hl
    · simp [Outcome.state]

theorem anchor_position_at_launch_witness :
    ((startState 3 (-4)).bodies.length = number_of_particles ∧
      (startState 3 (-4)).bodies_cl_memory.length = 7 * number_of_particles ∧
      (untilAccelerationLaunch okSubstrate (startState 3 (-4))).isReturned = true) ∧
    (atAccelerationLaunch okSubstrate (startState 3 (-4))).bodies_cl_memory[0]?
      = some (Float32.ofInt 3) :=
  ⟨⟨startState_bodies_length _ _, startState_memory_length _ _, okSubstrate_reaches_launch _ _⟩,
    (anchor_position_at_launch okSubstrate (startState 3 (-4)) (startState_bodies_length _ _)
      (startState_memory_length _ _) (okSubstrate_reaches_launch _ _)).2.2.1⟩

theorem okSubstrate_binds_anchor (mx my : ℤ) :
    (bindAnchor okSubstrate (startState mx my)).isReturned = true := by
  rfl

/-- C4: from every well-formed state, the anchor-binding part of `runIteration` (host
assignment and 2-float upload) leaves unchanged, on the host, the velocity, acceleration and
mass of body 0 and all bodies after it, and, in the buffer, every float after the first two,
that is the velocity, acceleration and mass of body 0 and all bodies after it. -/
theorem anchor_binding_frame (cl : Substrate) (s : State)
    (hb : s.bodies.length = number_of_particles)
    (hm : s.bodies_cl_memory.length = 7 * number_of_particles)
    (h : (bindAnchor cl s).isReturned = true) :
    ((bindAnchor cl s).state.bodies.length = s.bodies.length ∧
      (bindAnchor cl s).state.bodies.tail = s.bodies.tail ∧
      (bindAnchor cl s).state.bodies.head?.map body.vx = s.bodies.head?.map body.vx ∧
      (bindAnchor cl s).state.bodies.head?.map body.vy = s.bodies.head?.map body.vy ∧
      (bindAnchor cl s).state.bodies.head?.map body.ax = s.bodies.head?.map body.ax ∧
      (bindAnchor cl s).state.bodies.head?.map body.ay = s.bodies.head?.map body.ay ∧
      (bindAnchor cl s).state.bodies.head?.map body.m = s.bodies.head?.map body.m) ∧
    ((bindAnchor cl s).state.bodies_cl_memory.length = s.bodies_cl_memory.length ∧
      (bindAnchor cl s).state.bodies_cl_memory.drop 2 = s.bodies_cl_memory.drop 2) ∧
    ((unflatten (bindAnchor cl s).state.bodies_cl_memory).tail
        = (unflatten s.bodies_cl_memory).tail ∧
      (unflatten (bindAnchor cl s).state.bodies_cl_memory).head?.map body.vx
        = (unflatten s.bodies_cl_memory).head?.map body.vx ∧
      (unflatten (bindAnchor cl s).state.bodies_cl_memory).head?.map body.vy
        = (unflatten s.bodies_cl_memory).head?.map body.vy ∧
      (unflatten (bindAnchor cl s).state.bodies_cl_memory).head?.map body.ax
        = (unflatten s.bodies_cl_memory).head?.map body.ax ∧
      (unflatten (bindAnchor cl s).state.bodies_cl_memory).head?.map body.ay
        = (unflatten s.bodies_cl_memory).head?.map body.ay ∧
      (unflatten (bindAnchor cl s).state.bodies_cl_memory).head?.map body.m
        = (unflatten s.bodies_cl_memory).head?.map body.m) := by
  obtain ⟨e1, e2⟩ := bindAnchor_state cl s h
  obtain ⟨b, rest, a0, a1, a2, a3, a4, a5, a6, tl, hbs, hms, c1, c2⟩ := anchored_shape s hb hm
  rw [e2, c2, e1, c1, hbs, hms]
  refine ⟨⟨rfl, rfl, rfl, rfl, rfl, rfl, rfl⟩, ⟨rfl, rfl⟩, ⟨rfl, rfl, rfl, rfl, rfl, rfl⟩⟩

theorem anchor_binding_frame_witness :
    ((startState 3 (-4)).bodies.length = number_of_particles ∧
      (startState 3 (-4)).bodies_cl_memory.length = 7 * number_of_particles ∧
      (bindAnchor okSubstrate (startState 3 (-4))).isReturned = true) ∧
    (bindAnchor okSubstrate (startState 3 (-4))).state.bodies_cl_memory.drop 2
      = (startState 3 (-4)).bodies_cl_memory.drop 2 :=
  ⟨⟨startState_bodies_length _ _, startState_memory_length _ _, okSubstrate_binds_anchor _ _⟩,
    (anchor_binding_frame okSubstrate (startState 3 (-4)) (startState_bodies_length _ _)
      (startState_memory_length _ _) (okSubstrate_binds_anchor _ _)).2.1.2⟩

/-! ## The sequence of runtime calls -/

theorem nat_lor_eq_zero (a b : ℕ) : a ||| b = 0 ↔ a = 0 ∧ b = 0 := by
  constructor
  · intro h
    have key : ∀ i, (a.testBit i || b.testBit i) = false := by
      intro i
      rw [← Nat.testBit_or, h, Nat.zero_testBit]
    constructor
    · apply Nat.eq_of_testBit_eq
      intro i
      have := key i
      rw [Nat.zero_testBit]
      cases h1 : a.testBit i <;> simp_all
    · apply Nat.eq_of_testBit_eq
      intro i
      have := key i
      rw [Nat.zero_testBit]
      cases h1 : b.testBit i <;> simp_all
  · rintro ⟨rfl, rfl⟩
    rfl

theorem int_lor_eq_zero (a b : ℤ) : Int.lor a b = 0 ↔ a = 0 ∧ b = 0 := by
  cases a <;> cases b <;> simp [Int.lor]
  · rename_i m n
    have := nat_lor_eq_zero m n
    constructor
    · intro h; exact this.mp (by exact_mod_cast h)
    · intro h; exact_mod_cast this.mpr h

theorem int_lor_zero_zero : Int.lor 0 0 = 0 := rfl

theorem lor_args_eq_zero (a0 a1 a2 a3 : ℤ) :
    Int.lor (Int.lor (Int.lor a0 a1) a2) a3 = 0 ↔ a0 = 0 ∧ a1 = 0 ∧ a2 = 0 ∧ a3 = 0 := by
  simp only [int_lor_eq_zero]; tauto

theorem lor_zero_left (a : ℤ) : Int.lor 0 a = 0 ↔ a = 0 := by
  rw [int_lor_eq_zero]; simp

theorem not_argsFail (cl : Substrate) (k : Kernel) (h : ¬ argsFail cl k) :
    cl.setKernelArgErr k 0 = 0 ∧ cl.setKernelArgErr k 1 = 0 ∧ cl.setKernelArgErr k 2 = 0 ∧
      cl.setKernelArgErr k 3 = 0 := by
  unfold argsFail at h
  push_neg at h
  exact h

/-- The first failing stage decides how a step ends: `error` is called with the message of
that stage, after the calls up to that stage and no other, and before any download. -/
theorem runIteration_exit (cl : Substrate) (s : State) (dt : Float32) (st : Stage)
    (hprev : ∀ t : Stage, t.index < st.index → ¬ stageFails cl t)
    (hfail : stageFails cl st)
    (hwa : Stage.accelerationLaunch.index ≤ st.index → storedWorkGroupSize cl Kernel.acceleration ≠ 0)
    (hwi : Stage.integrationLaunch.index ≤ st.index → storedWorkGroupSize cl Kernel.integration ≠ 0) :
    (runIteration cl s dt).message = some st.message ∧
    (runIteration cl s dt).state.issued = s.issued ++ issuedThrough cl st ∧
    (st ≠ Stage.download → (runIteration cl s dt).state.bodies
      = setCenter s.bodies s.current_mouse_x s.current_mouse_y) := by
  cases st
  case anchorUpload =>
    have f : cl.writeBufferErr ≠ 0 := hfail
    simp [runIteration, untilAccelerationLaunch, bindAnchor, setAccelerationArgs,
      getAccelerationWorkGroup, launchAcceleration, finishQueue, setIntegrationArgs,
      getIntegrationWorkGroup, launchIntegration, readBack, Outcome.andThen, Outcome.message,
      Outcome.state, Stage.message, issuedThrough, Stage.all, Stage.index, stageOps, argOps,
      launchOp, storedWorkGroupSize,
      f]
  case accelerationArgs =>
    have p0 : cl.writeBufferErr = 0 := not_not.mp (hprev Stage.anchorUpload (by decide))
    have f : Int.lor (Int.lor (Int.lor (Int.lor 0 (cl.setKernelArgErr Kernel.acceleration 0))
        (cl.setKernelArgErr Kernel.acceleration 1)) (cl.setKernelArgErr Kernel.acceleration 2))
        (cl.setKernelArgErr Kernel.acceleration 3) ≠ 0 := by
      intro hc
      rw [lor_args_eq_zero, lor_zero_left] at hc
      have hf : argsFail cl Kernel.acceleration := hfail
      unfold argsFail at hf
      tauto
    simp [runIteration, untilAccelerationLaunch, bindAnchor, setAccelerationArgs,
      getAccelerationWorkGroup, launchAcceleration, finishQueue, setIntegrationArgs,
      getIntegrationWorkGroup, launchIntegration, readBack, Outcome.andThen, Outcome.message,
      Outcome.state, Stage.message, issuedThrough, Stage.all, Stage.index, stageOps, argOps,
      launchOp, storedWorkGroupSize,
      p0, f]
  case accelerationWorkGroup =>
    have p0 : cl.writeBufferErr = 0 := not_not.mp (hprev Stage.anchorUpload (by decide))
    have pA : Int.lor (Int.lor (Int.lor (Int.lor 0 (cl.setKernelArgErr Kernel.acceleration 0))
        (cl.setKernelArgErr Kernel.acceleration 1)) (cl.setKernelArgErr Kernel.acceleration 2))
        (cl.setKernelArgErr Kernel.acceleration 3) = 0 := by
      rw [lor_args_eq_zero, lor_zero_left]
      exact not_argsFail cl _ (hprev Stage.accelerationArgs (by decide))
    have f : cl.workGroupInfoErr Kernel.acceleration ≠ 0 := hfail
    simp [runIteration, untilAccelerationLaunch, bindAnchor, setAccelerationArgs,
      getAccelerationWorkGroup, launchAcceleration, finishQueue, setIntegrationArgs,
      getIntegrationWorkGroup, launchIntegration, readBack, Outcome.andThen, Outcome.message,
      Outcome.state, Stage.message, issuedThrough, Stage.all, Stage.index, stageOps, argOps,
      launchOp, storedWorkGroupSize,
      p0, pA, f]
  case accelerationLaunch =>
    have p0 : cl.writeBufferErr = 0 := not_not.mp (hprev Stage.anchorUpload (by decide))
    have pA : Int.lor (Int.lor (Int.lor (Int.lor 0 (cl.setKernelArgErr Kernel.acceleration 0))
        (cl.setKernelArgErr Kernel.acceleration 1)) (cl.setKernelArgErr Kernel.acceleration 2))
        (cl.setKernelArgErr Kernel.acceleration 3) = 0 := by
      rw [lor_args_eq_zero, lor_zero_left]
      exact not_argsFail cl _ (hprev Stage.accelerationArgs (by decide))
    have p2 : cl.workGroupInfoErr Kernel.acceleration = 0 :=
      not_not.mp (hprev Stage.accelerationWorkGroup (by decide))
    have wA : cl.workGroupSize Kernel.acceleration % SIZE_RANGE ≠ 0 := hwa (by decide)
    have f : Int.lor 0 (cl.ndRangeErr Kernel.acceleration) ≠ 0 := by
      rw [Ne, lor_zero_left]; exact hfail
    simp [runIteration, untilAccelerationLaunch, bindAnchor, setAccelerationArgs,
      getAccelerationWorkGroup, launchAcceleration, finishQueue, setIntegrationArgs,
      getIntegrationWorkGroup, launchIntegration, readBack, Outcome.andThen, Outcome.message,
      Outcome.state, Stage.message, issuedThrough, Stage.all, Stage.index, stageOps, argOps,
      launchOp, storedWorkGroupSize,
      p0, pA, p2, wA, f]
  case integrationArgs =>
    have p0 : cl.writeBufferErr = 0 := not_not.mp (hprev Stage.anchorUpload (by decide))
    have pA : Int.lor (Int.lor (Int.lor (Int.lor 0 (cl.setKernelArgErr Kernel.acceleration 0))
        (cl.setKernelArgErr Kernel.acceleration 1)) (cl.setKernelArgErr Kernel.acceleration 2))
        (cl.setKernelArgErr Kernel.acceleration 3) = 0 := by
      rw [lor_args_eq_zero, lor_zero_left]
      exact not_argsFail cl _ (hprev Stage.accelerationArgs (by decide))
    have p2 : cl.workGroupInfoErr Kernel.acceleration = 0 :=
      not_not.mp (hprev Stage.accelerationWorkGroup (by decide))
    have wA : cl.workGroupSize Kernel.acceleration % SIZE_RANGE ≠ 0 := hwa (by decide)
    have p3 : Int.lor 0 (cl.ndRangeErr Kernel.acceleration) = 0 := by
      rw [lor_zero_left]; exact not_not.mp (hprev Stage.accelerationLaunch (by decide))
    have f : Int.lor (Int.lor (Int.lor (cl.setKernelArgErr Kernel.integration 0)
        (cl.setKernelArgErr Kernel.integration 1)) (cl.setKernelArgErr Kernel.integration 2))
        (cl.setKernelArgErr Kernel.integration 3) ≠ 0 := by
      intro hc
      rw [lor_args_eq_zero] at hc
      have hf : argsFail cl Kernel.integration := hfail
      unfold argsFail at hf
      tauto
    simp [runIteration, untilAccelerationLaunch, bindAnchor, setAccelerationArgs,
      getAccelerationWorkGroup, launchAcceleration, finishQueue, setIntegrationArgs,
      getIntegrationWorkGroup, launchIntegration, readBack, Outcome.andThen, Outcome.message,
      Outcome.state, Stage.message, issuedThrough, Stage.all, Stage.index, stageOps, argOps,
      launchOp, storedWorkGroupSize,
      p0, pA, p2, wA, p3, f]
  case integrationWorkGroup =>
    have p0 : cl.writeBufferErr = 0 := not_not.mp (hprev Stage.anchorUpload (by decide))
    have pA : Int.lor (Int.lor (Int.lor (Int.lor 0 (cl.setKernelArgErr Kernel.acceleration 0))
        (cl.setKernelArgErr Kernel.acceleration 1)) (cl.setKernelArgErr Kernel.acceleration 2))
        (cl.setKernelArgErr Kernel.acceleration 3) = 0 := by
      rw [lor_args_eq_zero, lor_zero_left]
      exact not_argsFail cl _ (hprev Stage.accelerationArgs (by decide))
    have p2 : cl.workGroupInfoErr Kernel.acceleration = 0 :=
      not_not.mp (hprev Stage.accelerationWorkGroup (by decide))
    have wA : cl.workGroupSize Kernel.acceleration % SIZE_RANGE ≠ 0 := hwa (by decide)
    have p3 : Int.lor 0 (cl.ndRangeErr Kernel.acceleration) = 0 := by
      rw [lor_zero_left]; exact not_not.mp (hprev Stage.accelerationLaunch (by decide))
    have pI : Int.lor (Int.lor (Int.lor (cl.setKernelArgErr Kernel.integration 0)
        (cl.setKernelArgErr Kernel.integration 1)) (cl.setKernelArgErr Kernel.integration 2))
        (cl.setKernelArgErr Kernel.integration 3) = 0 := by
      rw [lor_args_eq_zero]
      exact not_argsFail cl _ (hprev Stage.integrationArgs (by decide))
    have f : cl.workGroupInfoErr Kernel.integration ≠ 0 := hfail
    simp [runIteration, untilAccelerationLaunch, bindAnchor, setAccelerationArgs,
      getAccelerationWorkGroup, launchAcceleration, finishQueue, setIntegrationArgs,
      getIntegrationWorkGroup, launchIntegration, readBack, Outcome.andThen, Outcome.message,
      Outcome.state, Stage.message, issuedThrough, Stage.all, Stage.index, stageOps, argOps,
      launchOp, storedWorkGroupSize,
      p0, pA, p2, wA, p3, pI, f]
  case integrationLaunch =>
    have p0 : cl.writeBufferErr = 0 := not_not.mp (hprev Stage.anchorUpload (by decide))
    have pA : Int.lor (Int.lor (Int.lor (Int.lor 0 (cl.setKernelArgErr Kernel.acceleration 0))
        (cl.setKernelArgErr Kernel.acceleration 1)) (cl.setKernelArgErr Kernel.acceleration 2))
        (cl.setKernelArgErr Kernel.acceleration 3) = 0 := by
      rw [lor_args_eq_zero, lor_zero_left]
      exact not_argsFail cl _ (hprev Stage.accelerationArgs (by decide))
    have p2 : cl.workGroupInfoErr Kernel.acceleration = 0 :=
      not_not.mp (hprev Stage.accelerationWorkGroup (by decide))
    have wA : cl.workGroupSize Kernel.acceleration % SIZE_RANGE ≠ 0 := hwa (by decide)
    have p3 : Int.lor 0 (cl.ndRangeErr Kernel.acceleration) = 0 := by
      rw [lor_zero_left]; exact not_not.mp (hprev Stage.accelerationLaunch (by decide))
    have pI : Int.lor (Int.lor (Int.lor (cl.setKernelArgErr Kernel.integration 0)
        (cl.setKernelArgErr Kernel.integration 1)) (cl.setKernelArgErr Kernel.integration 2))
        (cl.setKernelArgErr Kernel.integration 3) = 0 := by
      rw [lor_args_eq_zero]
      exact not_argsFail cl _ (hprev Stage.integrationArgs (by decide))
    have p5 : cl.workGroupInfoErr Kernel.integration = 0 :=
      not_not.mp (hprev Stage.integrationWorkGroup (by decide))
    have wI : cl.workGroupSize Kernel.integration % SIZE_RANGE ≠ 0 := hwi (by decide)
    have f : cl.ndRangeErr Kernel.integration ≠ 0 := hfail
    simp [runIteration, untilAccelerationLaunch, bindAnchor, setAccelerationArgs,
      getAccelerationWorkGroup, launchAcceleration, finishQueue, setIntegrationArgs,
      getIntegrationWorkGroup, launchIntegration, readBack, Outcome.andThen, Outcome.message,
      Outcome.state, Stage.message, issuedThrough, Stage.all, Stage.index, stageOps, argOps,
      launchOp, storedWorkGroupSize,
      p0, pA, p2, wA, p3, pI, p5, wI, f]
  case download =>
    have p0 : cl.writeBufferErr = 0 := not_not.mp (hprev Stage.anchorUpload (by decide))
    have pA : Int.lor (Int.lor (Int.lor (Int.lor 0 (cl.setKernelArgErr Kernel.acceleration 0))
        (cl.setKernelArgErr Kernel.acceleration 1)) (cl.setKernelArgErr Kernel.acceleration 2))
        (cl.setKernelArgErr Kernel.acceleration 3) = 0 := by
      rw [lor_args_eq_zero, lor_zero_left]
      exact not_argsFail cl _ (hprev Stage.accelerationArgs (by decide))
    have p2 : cl.workGroupInfoErr Kernel.acceleration = 0 :=
      not_not.mp (hprev Stage.accelerationWorkGroup (by decide))
    have wA : cl.workGroupSize Kernel.acceleration % SIZE_RANGE ≠ 0 := hwa (by decide)
    have p3 : Int.lor 0 (cl.ndRangeErr Kernel.acceleration) = 0 := by
      rw [lor_zero_left]; exact not_not.mp (hprev Stage.accelerationLaunch (by decide))
    have pI : Int.lor (Int.lor (Int.lor (cl.setKernelArgErr Kernel.integration 0)
        (cl.setKernelArgErr Kernel.integration 1)) (cl.setKernelArgErr Kernel.integration 2))
        (cl.setKernelArgErr Kernel.integration 3) = 0 := by
      rw [lor_args_eq_zero]
      exact not_argsFail cl _ (hprev Stage.integrationArgs (by decide))
    have p5 : cl.workGroupInfoErr Kernel.integration = 0 :=
      not_not.mp (hprev Stage.integrationWorkGroup (by decide))
    have wI : cl.workGroupSize Kernel.integration % SIZE_RANGE ≠ 0 := hwi (by decide)
    have p6 : cl.ndRangeErr Kernel.integration = 0 :=
      not_not.mp (hprev Stage.integrationLaunch (by decide))
    have f : cl.readBufferErr ≠ 0 := hfail
    simp [runIteration, untilAccelerationLaunch, bindAnchor, setAccelerationArgs,
      getAccelerationWorkGroup, launchAcceleration, finishQueue, setIntegrationArgs,
      getIntegrationWorkGroup, launchIntegration, readBack, Outcome.andThen, Outcome.message,
      Outcome.state, Stage.message, issuedThrough, Stage.all, Stage.index, stageOps, argOps,
      launchOp, storedWorkGroupSize,
      p0, pA, p2, wA, p3, pI, p5, wI, p6, f]

theorem message_some_not_returned (o : Outcome) (m : String) (h : o.message = some m) :
    o.isReturned = false := by
  cases o <;> simp [Outcome.message, Outcome.isReturned] at h ⊢

/-- A zero work group size for the acceleration kernel, after three passed checks, ends the
step in the division. -/
theorem runIteration_undefined_acceleration (cl : Substrate) (s : State) (dt : Float32)
    (h0 : ¬ stageFails cl Stage.anchorUpload) (h1 : ¬ stageFails cl Stage.accelerationArgs)
    (h2 : ¬ stageFails cl Stage.accelerationWorkGroup)
    (hw : storedWorkGroupSize cl Kernel.acceleration = 0) :
    (runIteration cl s dt).isReturned = false := by
  have p0 : cl.writeBufferErr = 0 := not_not.mp h0
  have pA : Int.lor (Int.lor (Int.lor (Int.lor 0 (cl.setKernelArgErr Kernel.acceleration 0))
        (cl.setKernelArgErr Kernel.acceleration 1)) (cl.setKernelArgErr Kernel.acceleration 2))
        (cl.setKernelArgErr Kernel.acceleration 3) = 0 := by
    rw [lor_args_eq_zero, lor_zero_left]
    exact not_argsFail cl _ h1
  have p2 : cl.workGroupInfoErr Kernel.acceleration = 0 := not_not.mp h2
  have wA : cl.workGroupSize Kernel.acceleration % SIZE_RANGE = 0 := hw
  simp [runIteration, untilAccelerationLaunch, bindAnchor, setAccelerationArgs,
      getAccelerationWorkGroup, launchAcceleration, finishQueue, setIntegrationArgs,
      getIntegrationWorkGroup, launchIntegration, readBack, Outcome.andThen, Outcome.message,
      Outcome.state, Outcome.isReturned, Stage.message, issuedThrough, Stage.all, Stage.index,
      stageOps, argOps, launchOp, storedWorkGroupSize,
    p0, pA, p2, wA]

/-- A zero work group size for the integration kernel, after six passed checks, ends the step
in the division. -/
theorem runIteration_undefined_integration (cl : Substrate) (s : State) (dt : Float32)
    (h0 : ¬ stageFails cl Stage.anchorUpload) (h1 : ¬ stageFails cl Stage.accelerationArgs)
    (h2 : ¬ stageFails cl Stage.accelerationWorkGroup)
    (hwa : storedWorkGroupSize cl Kernel.acceleration ≠ 0)
    (h3 : ¬ stageFails cl Stage.accelerationLaunch) (h4 : ¬ stageFails cl Stage.integrationArgs)
    (h5 : ¬ stageFails cl Stage.integrationWorkGroup)
    (hw : storedWorkGroupSize cl Kernel.integration = 0) :
    (runIteration cl s dt).isReturned = false := by
  have p0 : cl.writeBufferErr = 0 := not_not.mp h0
  have pA : Int.lor (Int.lor (Int.lor (Int.lor 0 (cl.setKernelArgErr Kernel.acceleration 0))
        (cl.setKernelArgErr Kernel.acceleration 1)) (cl.setKernelArgErr Kernel.acceleration 2))
        (cl.setKernelArgErr Kernel.acceleration 3) = 0 := by
    rw [lor_args_eq_zero, lor_zero_left]
    exact not_argsFail cl _ h1
  have p2 : cl.workGroupInfoErr Kernel.acceleration = 0 := not_not.mp h2
  have wA : cl.workGroupSize Kernel.acceleration % SIZE_RANGE ≠ 0 := hwa
  have p3 : Int.lor 0 (cl.ndRangeErr Kernel.acceleration) = 0 := by
    rw [lor_zero_left]; exact not_not.mp h3
  have pI : Int.lor (Int.lor (Int.lor (cl.setKernelArgErr Kernel.integration 0)
        (cl.setKernelArgErr Kernel.integration 1)) (cl.setKernelArgErr Kernel.integration 2))
        (cl.setKernelArgErr Kernel.integration 3) = 0 := by
    rw [lor_args_eq_zero]
    exact not_argsFail cl _ h4
  have p5 : cl.workGroupInfoErr Kernel.integration = 0 := not_not.mp h5
  have wI : cl.workGroupSize Kernel.integration % SIZE_RANGE = 0 := hw
  simp [runIteration, untilAccelerationLaunch, bindAnchor, setAccelerationArgs,
      getAccelerationWorkGroup, launchAcceleration, finishQueue, setIntegrationArgs,
      getIntegrationWorkGroup, launchIntegration, readBack, Outcome.andThen, Outcome.message,
      Outcome.state, Outcome.isReturned, Stage.message, issuedThrough, Stage.all, Stage.index,
      stageOps, argOps, launchOp, storedWorkGroupSize,
    p0, pA, p2, wA, p3, pI, p5, wI]

/-- When every check passes the step returns, after the calls of all stages in order, with the
host array read back from the buffer the integration kernel produced. -/
theorem runIteration_pass (cl : Substrate) (s : State) (dt : Float32) (h : allChecksPass cl) :
    (runIteration cl s dt).isReturned = true ∧
    (runIteration cl s dt).state.issued = s.issued ++ issuedThrough cl Stage.download ∧
    (runIteration cl s dt).state.bodies_cl_memory
      = cl.integrate dt s.decay (global_size (storedWorkGroupSize cl Kernel.integration))
          (storedWorkGroupSize cl Kernel.integration)
          (cl.accelerate (global_size (storedWorkGroupSize cl Kernel.acceleration))
            (storedWorkGroupSize cl Kernel.acceleration)
            (copyBytes s.bodies_cl_memory 0 (sizeof_float * 2)
              (flatten (setCenter s.bodies s.current_mouse_x s.current_mouse_y)))) ∧
    (runIteration cl s dt).state.bodies
      = unflatten (copyBytes (flatten (setCenter s.bodies s.current_mouse_x s.current_mouse_y))
          0 SIZE_OF_BODIES (runIteration cl s dt).state.bodies_cl_memory) := by
  obtain ⟨p0, hA, p2, wA, h3, hI, p5, wI, p6, p7⟩ := h
  have pA : Int.lor (Int.lor (Int.lor (Int.lor 0 (cl.setKernelArgErr Kernel.acceleration 0))
        (cl.setKernelArgErr Kernel.acceleration 1)) (cl.setKernelArgErr Kernel.acceleration 2))
        (cl.setKernelArgErr Kernel.acceleration 3) = 0 := by
    rw [lor_args_eq_zero, lor_zero_left]; exact hA
  have p3 : Int.lor 0 (cl.ndRangeErr Kernel.acceleration) = 0 := by
    rw [lor_zero_left]; exact h3
  have pI : Int.lor (Int.lor (Int.lor (cl.setKernelArgErr Kernel.integration 0)
        (cl.setKernelArgErr Kernel.integration 1)) (cl.setKernelArgErr Kernel.integration 2))
        (cl.setKernelArgErr Kernel.integration 3) = 0 := by
    rw [lor_args_eq_zero]; exact hI
  unfold storedWorkGroupSize at wA wI
  simp [runIteration, untilAccelerationLaunch, bindAnchor, setAccelerationArgs,
      getAccelerationWorkGroup, launchAcceleration, finishQueue, setIntegrationArgs,
      getIntegrationWorkGroup, launchIntegration, readBack, Outcome.andThen, Outcome.message,
      Outcome.state, Outcome.isReturned, Stage.message, issuedThrough, Stage.all, Stage.index,
      stageOps, argOps, launchOp, storedWorkGroupSize,
    p0, pA, p2, wA, p3, pI, p5, wI, p6, p7]

theorem runIteration_returned (cl : Substrate) (s : State) (dt : Float32)
    (h : (runIteration cl s dt).isReturned = true) : allChecksPass cl := by
  have key : ∀ st : Stage,
      (∀ t : Stage, t.index < st.index → ¬ stageFails cl t) →
      (Stage.accelerationLaunch.index ≤ st.index →
        storedWorkGroupSize cl Kernel.acceleration ≠ 0) →
      (Stage.integrationLaunch.index ≤ st.index →
        storedWorkGroupSize cl Kernel.integration ≠ 0) → ¬ stageFails cl st := by
    intro st hprev hwa hwi hfail
    have := message_some_not_returned _ _ (runIteration_exit cl s dt st hprev hfail hwa hwi).1
    rw [h] at this
    exact Bool.noConfusion this
  have f0 : ¬ stageFails cl Stage.anchorUpload :=
    key _ (by intro t ht; cases t <;> simp [Stage.index] at ht)
      (by intro hc; simp [Stage.index] at hc) (by intro hc; simp [Stage.index] at hc)
  have f1 : ¬ stageFails cl Stage.accelerationArgs :=
    key _ (by intro t ht; cases t <;> simp [Stage.index] at ht; exact f0)
      (by intro hc; simp [Stage.index] at hc) (by intro hc; simp [Stage.index] at hc)
  have f2 : ¬ stageFails cl Stage.accelerationWorkGroup :=
    key _ (by intro t ht; cases t <;> simp [Stage.index] at ht <;> assumption)
      (by intro hc; simp [Stage.index] at hc) (by intro hc; simp [Stage.index] at hc)
  have wA : storedWorkGroupSize cl Kernel.acceleration ≠ 0 := by
    intro hw
    have := runIteration_undefined_acceleration cl s dt f0 f1 f2 hw
    rw [h] at this
    exact Bool.noConfusion this
  have f3 : ¬ stageFails cl Stage.accelerationLaunch :=
    key _ (by intro t ht; cases t <;> simp [Stage.index] at ht <;> assumption)
      (fun _ => wA) (by intro hc; simp [Stage.index] at hc)
  have f4 : ¬ stageFails cl Stage.integrationArgs :=
    key _ (by intro t ht; cases t <;> simp [Stage.index] at ht <;> assumption)
      (fun _ => wA) (by intro hc; simp [Stage.index] at hc)
  have f5 : ¬ stageFails cl Stage.integrationWorkGroup :=
    key _ (by intro t ht; cases t <;> simp [Stage.index] at ht <;> assumption)
      (fun _ => wA) (by intro hc; simp [Stage.index] at hc)
  have wI : storedWorkGroupSize cl Kernel.integration ≠ 0 := by
    intro hw
    have := runIteration_undefined_integration cl s dt f0 f1 f2 wA f3 f4 f5 hw
    rw [h] at this
    exact Bool.noConfusion this
  have f6 : ¬ stageFails cl Stage.integrationLaunch :=
    key _ (by intro t ht; cases t <;> simp [Stage.index] at ht <;> assumption)
      (fun _ => wA) (fun _ => wI)
  have f7 : ¬ stageFails cl Stage.download :=
    key _ (by intro t ht; cases t <;> simp [Stage.index] at ht <;> assumption)
      (fun _ => wA) (fun _ => wI)
  exact ⟨not_not.mp f0, not_argsFail cl _ f1, not_not.mp f2, wA, not_not.mp f3,
    not_argsFail cl _ f4, not_not.mp f5, wI, not_not.mp f6, not_not.mp f7⟩

theorem storedWorkGroupSize_lt (cl : Substrate) (k : Kernel) :
    storedWorkGroupSize cl k < SIZE_RANGE :=
  Nat.mod_lt _ (by decide)

theorem stepCalls_eq (cl : Substrate) (s : State) (dt : Float32) (l : List Op)
    (h : (runIteration cl s dt).state.issued = s.issued ++ l) : stepCalls cl s dt = l := by
  unfold stepCalls
  rw [h, List.drop_left]

/-- C5: when `runIteration` returns, the calls it has issued are, in this order: the anchor
upload (2 floats at offset 0), the four argument sets and the work group query of the
acceleration kernel, one launch of that kernel over a range of at least
`number_of_particles`, a barrier, the four argument sets and the work group query of the
integration kernel, one launch of that kernel over a range of at least `number_of_particles`,
a barrier, and one read of the whole buffer.  The queue therefore sees exactly
upload, acceleration launch, barrier, integration launch, barrier, download, each kernel
being launched once. -/
theorem step_call_sequence (cl : Substrate) (s : State) (dt : Float32)
    (h : (runIteration cl s dt).isReturned = true) :
    stepCalls cl s dt =
      [Op.enqueueWriteBuffer 0 (sizeof_float * 2),
        Op.setKernelArg Kernel.acceleration 0, Op.setKernelArg Kernel.acceleration 1,
        Op.setKernelArg Kernel.acceleration 2, Op.setKernelArg Kernel.acceleration 3,
        Op.getKernelWorkGroupInfo Kernel.acceleration,
        Op.enqueueNDRangeKernel Kernel.acceleration
          (global_size (storedWorkGroupSize cl Kernel.acceleration))
          (storedWorkGroupSize cl Kernel.acceleration),
        Op.finish,
        Op.setKernelArg Kernel.integration 0, Op.setKernelArg Kernel.integration 1,
        Op.setKernelArg Kernel.integration 2, Op.setKernelArg Kernel.integration 3,
        Op.getKernelWorkGroupInfo Kernel.integration,
        Op.enqueueNDRangeKernel Kernel.integration
          (global_size (storedWorkGroupSize cl Kernel.integration))
          (storedWorkGroupSize cl Kernel.integration),
        Op.finish,
        Op.enqueueReadBuffer 0 SIZE_OF_BODIES] ∧
    (stepCalls cl s dt).filter Op.isCommand =
      [Op.enqueueWriteBuffer 0 (sizeof_float * 2),
        Op.enqueueNDRangeKernel Kernel.acceleration
          (global_size (storedWorkGroupSize cl Kernel.acceleration))
          (storedWorkGroupSize cl Kernel.acceleration),
        Op.finish,
        Op.enqueueNDRangeKernel Kernel.integration
          (global_size (storedWorkGroupSize cl Kernel.integration))
          (storedWorkGroupSize cl Kernel.integration),
        Op.finish,
        Op.enqueueReadBuffer 0 SIZE_OF_BODIES] ∧
    ((stepCalls cl s dt).filter (Op.launches Kernel.acceleration)).length = 1 ∧
    ((stepCalls cl s dt).filter (Op.launches Kernel.integration)).length = 1 ∧
    number_of_particles ≤ global_size (storedWorkGroupSize cl Kernel.acceleration) ∧
    number_of_particles ≤ global_size (storedWorkGroupSize cl Kernel.integration) ∧
    (runIteration cl s dt).state.bodies_cl_memory
      = cl.integrate dt s.decay (global_size (storedWorkGroupSize cl Kernel.integration))
          (storedWorkGroupSize cl Kernel.integration)
          (cl.accelerate (global_size (storedWorkGroupSize cl Kernel.acceleration))
            (storedWorkGroupSize cl Kernel.acceleration)
            (atAccelerationLaunch cl s).bodies_cl_memory) ∧
    (runIteration cl s dt).state.bodies
      = unflatten (copyBytes (flatten (atAccelerationLaunch cl s).bodies)
          0 SIZE_OF_BODIES (runIteration cl s dt).state.bodies_cl_memory) := by
  have hp := runIteration_returned cl s dt h
  have hcalls := stepCalls_eq cl s dt _ (runIteration_pass cl s dt hp).2.1
  have hmem := (runIteration_pass cl s dt hp).2.2
  have hreach : (untilAccelerationLaunch cl s).isReturned = true := by
    unfold runIteration at h
    exact (andThen_isReturned _ _ (andThen_isReturned _ _ (andThen_isReturned _ _
      (andThen_isReturned _ _ (andThen_isReturned _ _ (andThen_isReturned _ _
      (andThen_isReturned _ _ h).1).1).1).1).1).1).1
  obtain ⟨hlb, hlm⟩ := untilAccelerationLaunch_state cl s hreach
  obtain ⟨-, -, -, wA, -, -, -, wI, -, -⟩ := hp
  rw [hcalls]
  refine ⟨?_, ?_, ?_, ?_, ?_, ?_, ?_, ?_⟩
  · simp [issuedThrough, Stage.all, Stage.index, stageOps, argOps, launchOp]
  · simp [issuedThrough, Stage.all, Stage.index, stageOps, argOps, launchOp, Op.isCommand]
  · simp [issuedThrough, Stage.all, Stage.index, stageOps, argOps, launchOp, Op.launches]
  · simp [issuedThrough, Stage.all, Stage.index, stageOps, argOps, launchOp, Op.launches]
  · exact (launched_range_bounds _ (Nat.pos_of_ne_zero wA) (storedWorkGroupSize_lt cl _))
  · exact (launched_range_bounds _ (Nat.pos_of_ne_zero wI) (storedWorkGroupSize_lt cl _))
  · unfold atAccelerationLaunch; rw [hlm]; exact hmem.1
  · unfold atAccelerationLaunch; rw [hlb]; exact hmem.2

theorem okSubstrate_returns :
    (runIteration okSubstrate (startState 0 0) (Float32.finite 10000)).isReturned = true := by
  rfl

theorem step_call_sequence_witness :
    (runIteration okSubstrate (startState 0 0) (Float32.finite 10000)).isReturned = true ∧
    (stepCalls okSubstrate (startState 0 0) (Float32.finite 10000)).filter Op.isCommand =
      [Op.enqueueWriteBuffer 0 (sizeof_float * 2),
        Op.enqueueNDRangeKernel Kernel.acceleration
          (global_size (storedWorkGroupSize okSubstrate Kernel.acceleration))
          (storedWorkGroupSize okSubstrate Kernel.acceleration),
        Op.finish,
        Op.enqueueNDRangeKernel Kernel.integration
          (global_size (storedWorkGroupSize okSubstrate Kernel.integration))
          (storedWorkGroupSize okSubstrate Kernel.integration),
        Op.finish,
        Op.enqueueReadBuffer 0 SIZE_OF_BODIES] :=
  ⟨okSubstrate_returns,
    (step_call_sequence okSubstrate (startState 0 0) (Float32.finite 10000)
      okSubstrate_returns).2.1⟩

/-! ## Failures -/

/-- C6, as stated, fails: when the first argument set of the acceleration kernel returns a
non-zero code, the step does end in `error`, but only after the three remaining argument sets
have been issued as well. -/
theorem argument_failure_later_calls_issued :
    argFailSubstrate.setKernelArgErr Kernel.acceleration 0 ≠ 0 ∧
    (runIteration argFailSubstrate (startState 0 0) (Float32.finite 10000)).message
      = some "Failed to set acceleration kernel arguments" ∧
    stepCalls argFailSubstrate (startState 0 0) (Float32.finite 10000) =
      [Op.enqueueWriteBuffer 0 (sizeof_float * 2),
        Op.setKernelArg Kernel.acceleration 0, Op.setKernelArg Kernel.acceleration 1,
        Op.setKernelArg Kernel.acceleration 2, Op.setKernelArg Kernel.acceleration 3] := by
  refine ⟨by decide, by rfl, by rfl⟩

theorem message_injective : Function.Injective Stage.message := by
  intro a b h
  cases a <;> cases b <;> first | rfl | (exact absurd h (by decide))

theorem no_download_before_last_stage (cl : Substrate) (st : Stage) (h : st ≠ Stage.download) :
    Op.enqueueReadBuffer 0 SIZE_OF_BODIES ∉ issuedThrough cl st := by
  cases st <;>
    simp [issuedThrough, Stage.all, Stage.index, stageOps, argOps, launchOp] at h ⊢

/-- C6, amended: when a call of one of the eight checked stages (anchor upload, argument
sets, work group query and launch of each kernel, final download) returns a non-zero code and
no earlier stage fails, `runIteration` ends in `error` with the message of that stage, the
messages of the eight stages being pairwise distinct; the calls issued are those up to and
including that stage (all four argument sets when the stage is an argument stage) and no call
of a later stage; unless the failing stage is the download itself, no download is issued and
the host array is as the anchor binding left it. -/
theorem first_failure_is_fatal (cl : Substrate) (s : State) (dt : Float32) (st : Stage)
    (hprev : ∀ t : Stage, t.index < st.index → ¬ stageFails cl t)
    (hfail : stageFails cl st)
    (hwa : Stage.accelerationLaunch.index ≤ st.index →
      storedWorkGroupSize cl Kernel.acceleration ≠ 0)
    (hwi : Stage.integrationLaunch.index ≤ st.index →
      storedWorkGroupSize cl Kernel.integration ≠ 0) :
    (runIteration cl s dt).message = some st.message ∧
    (∀ t : Stage, t ≠ st → t.message ≠ st.message) ∧
    stepCalls cl s dt = issuedThrough cl st ∧
    (st ≠ Stage.download →
      Op.enqueueReadBuffer 0 SIZE_OF_BODIES ∉ stepCalls cl s dt ∧
      (runIteration cl s dt).state.bodies
        = setCenter s.bodies s.current_mouse_x s.current_mouse_y) := by
  obtain ⟨h1, h2, h3⟩ := runIteration_exit cl s dt st hprev hfail hwa hwi
  have hc := stepCalls_eq cl s dt _ h2
  refine ⟨h1, fun t ht hm => ht (message_injective hm), hc, fun hne => ⟨?_, h3 hne⟩⟩
  rw [hc]
  exact no_download_before_last_stage cl st hne

theorem first_failure_is_fatal_witness :
    ((∀ t : Stage, t.index < Stage.accelerationLaunch.index → ¬ stageFails launchFailSubstrate t) ∧
      stageFails launchFailSubstrate Stage.accelerationLaunch ∧
      storedWorkGroupSize launchFailSubstrate Kernel.acceleration ≠ 0) ∧
    (runIteration launchFailSubstrate (startState 0 0) (Float32.finite 10000)).message
      = some "Error executing acceleration kernel" :=
  ⟨⟨by intro t ht; cases t <;> simp [Stage.index] at ht <;> decide, by decide, by decide⟩,
    (first_failure_is_fatal launchFailSubstrate (startState 0 0) (Float32.finite 10000)
      Stage.accelerationLaunch
      (by intro t ht; cases t <;> simp [Stage.index] at ht <;> decide) (by decide)
      (fun _ => by decide) (fun h => absurd h (by decide))).1⟩

/-- C7, as stated, fails: when both barriers report `CL_OUT_OF_RESOURCES` and every other call
succeeds, the step returns normally, having gone on to the integration phase and to the
download. -/
theorem barrier_failure_not_fatal :
    barrierFailSubstrate.finishErr Kernel.acceleration ≠ 0 ∧
    barrierFailSubstrate.finishErr Kernel.integration ≠ 0 ∧
    (runIteration barrierFailSubstrate (startState 0 0) (Float32.finite 10000)).isReturned
      = true ∧
    (runIteration barrierFailSubstrate (startState 0 0) (Float32.finite 10000)).message = none ∧
    (stepCalls barrierFailSubstrate (startState 0 0) (Float32.finite 10000)).filter Op.isCommand =
      [Op.enqueueWriteBuffer 0 8, Op.enqueueNDRangeKernel Kernel.acceleration 1280 256,
        Op.finish, Op.enqueueNDRangeKernel Kernel.integration 1280 256, Op.finish,
        Op.enqueueReadBuffer 0 28672] := by
  refine ⟨by decide, by decide, by rfl, by rfl, by rfl⟩

/-- C7, amended: the value returned by either barrier is not used: whatever codes the barriers
report, `runIteration` ends the same way, in the same state and after the same calls; when
every checked call succeeds it returns normally, having issued both barriers, the integration
phase and the download. -/
theorem barrier_result_unused (cl : Substrate) (s : State) (dt : Float32)
    (codes : Kernel → ℤ) :
    runIteration { cl with finishErr := codes } s dt = runIteration cl s dt ∧
    (allChecksPass cl →
      (runIteration { cl with finishErr := codes } s dt).isReturned = true ∧
      (runIteration { cl with finishErr := codes } s dt).message = none ∧
      (stepCalls { cl with finishErr := codes } s dt).filter Op.isCommand =
        [Op.enqueueWriteBuffer 0 (sizeof_float * 2), launchOp cl Kernel.acceleration,
          Op.finish, launchOp cl Kernel.integration, Op.finish,
          Op.enqueueReadBuffer 0 SIZE_OF_BODIES]) := by
  have hsame : runIteration { cl with finishErr := codes } s dt = runIteration cl s dt := rfl
  have hcalls : stepCalls { cl with finishErr := codes } s dt = stepCalls cl s dt := rfl
  refine ⟨hsame, fun h => ?_⟩
  obtain ⟨hret, hiss, -⟩ := runIteration_pass cl s dt h
  refine ⟨?_, ?_, ?_⟩
  · rw [hsame]; exact hret
  · rw [hsame]
    cases hr : runIteration cl s dt with
    | returned t => rfl
    | exited msg t => rw [hr] at hret; exact absurd hret (by simp [Outcome.isReturned])
    | undefined t => rfl
  · rw [hcalls, stepCalls_eq cl s dt _ hiss]
    simp [issuedThrough, Stage.all, Stage.index, stageOps, argOps, launchOp, Op.isCommand]

theorem okSubstrate_passes : allChecksPass okSubstrate := by
  unfold allChecksPass
  decide

theorem barrier_result_unused_witness :
    allChecksPass okSubstrate ∧
    (runIteration { okSubstrate with finishErr := fun _ => -5 } (startState 0 0)
      (Float32.finite 10000)).isReturned = true :=
  ⟨okSubstrate_passes,
    ((barrier_result_unused okSubstrate (startState 0 0) (Float32.finite 10000)
      (fun _ => -5)).2 okSubstrate_passes).1⟩

/-! ## Cursor tracking -/

theorem toUnsigned_val (i : ℤ) : (toUnsigned i : ℤ) = i % 4294967296 := by
  unfold toUnsigned UINT_RANGE
  have : (0 : ℤ) ≤ i % ((2 ^ 32 : ℕ) : ℤ) := Int.emod_nonneg _ (by norm_num)
  rw [Int.toNat_of_nonneg this]
  norm_num

theorem toSigned_val (u : ℕ) :
    toSigned u = if u < 2147483648 then (u : ℤ) else (u : ℤ) - 4294967296 := by
  unfold toSigned UINT_RANGE
  norm_num

/-- C10: for `int` cursor coordinates `x`, `y` and an `unsigned int` window size, when
`x - width / 2` and `height / 2 - y` fit in an `int`, `mouseMove` stores exactly these signed
values, negative ones included; the cursor at `(width / 2, height / 2)` gives the anchor
`(0, 0)`. -/
theorem mouseMove_signed_offsets (s : State) (x y : ℤ)
    (hx : -2147483648 ≤ x ∧ x ≤ 2147483647) (hy : -2147483648 ≤ y ∧ y ≤ 2147483647)
    (hw : s.width < UINT_RANGE) (hh : s.height < UINT_RANGE)
    (hfx : -2147483648 ≤ x - ((s.width / 2 : ℕ) : ℤ) ∧ x - ((s.width / 2 : ℕ) : ℤ) ≤ 2147483647)
    (hfy : -2147483648 ≤ ((s.height / 2 : ℕ) : ℤ) - y ∧
      ((s.height / 2 : ℕ) : ℤ) - y ≤ 2147483647) :
    (mouseMove s x y).current_mouse_x = x - ((s.width / 2 : ℕ) : ℤ) ∧
    (mouseMove s x y).current_mouse_y = ((s.height / 2 : ℕ) : ℤ) - y ∧
    (mouseMove s ((s.width / 2 : ℕ) : ℤ) ((s.height / 2 : ℕ) : ℤ)).current_mouse_x = 0 ∧
    (mouseMove s ((s.width / 2 : ℕ) : ℤ) ((s.height / 2 : ℕ) : ℤ)).current_mouse_y = 0 := by
  unfold UINT_RANGE at hw hh
  have key1 : ∀ a : ℤ, -2147483648 ≤ a → a ≤ 2147483647 →
      -2147483648 ≤ a - ((s.width / 2 : ℕ) : ℤ) → a - ((s.width / 2 : ℕ) : ℤ) ≤ 2147483647 →
      toSigned ((toUnsigned a + UINT_RANGE - s.width / 2) % UINT_RANGE)
        = a - ((s.width / 2 : ℕ) : ℤ) := by
    intro a ha1 ha2 hb1 hb2
    have hu := toUnsigned_val a
    rw [toSigned_val]
    unfold UINT_RANGE
    split_ifs <;> omega
  have key2 : ∀ b : ℤ, -2147483648 ≤ b → b ≤ 2147483647 →
      -2147483648 ≤ ((s.height / 2 : ℕ) : ℤ) - b → ((s.height / 2 : ℕ) : ℤ) - b ≤ 2147483647 →
      toSigned ((toUnsigned (toSigned (toUnsigned (-b))) + s.height / 2) % UINT_RANGE)
        = ((s.height / 2 : ℕ) : ℤ) - b := by
    intro b hb1 hb2 hc1 hc2
    have hu := toUnsigned_val (-b)
    have hs := toSigned_val (toUnsigned (-b))
    have hu2 := toUnsigned_val (toSigned (toUnsigned (-b)))
    rw [toSigned_val]
    unfold UINT_RANGE
    split_ifs at hs ⊢ <;> omega
  refine ⟨key1 x hx.1 hx.2 hfx.1 hfx.2, key2 y hy.1 hy.2 hfy.1 hfy.2, ?_, ?_⟩
  · have := key1 ((s.width / 2 : ℕ) : ℤ) (by omega) (by omega) (by omega) (by omega)
    simpa [mouseMove] using this
  · have := key2 ((s.height / 2 : ℕ) : ℤ) (by omega) (by omega) (by omega) (by omega)
    simpa [mouseMove] using this

theorem mouseMove_signed_offsets_witness :
    ((-2147483648 : ℤ) ≤ 100 ∧ (100 : ℤ) ≤ 2147483647) ∧
    (mouseMove (startState 0 0) 100 500).current_mouse_x = -400 ∧
    (mouseMove (startState 0 0) 100 500).current_mouse_y = -200 := by
  have h := mouseMove_signed_offsets (startState 0 0) 100 500 (by decide) (by decide)
    (by decide) (by decide) (by decide) (by decide)
  exact ⟨by decide, h.1, h.2.1⟩

/-! ## Initialisation -/

/-- C8: over the reals, for a body at displacement `(dx, dy)` from body 0 with
`r = sqrt (dx^2 + dy^2) > 0`, the velocity assigned at initialisation is
`(ve * dy / r, -ve * dx / r)` with `ve = sqrt (G * m0 / r)`; it is perpendicular to the radius
vector and its magnitude is `sqrt (G * m0 / r)`. -/
theorem orbit_velocity_circular (G m0 x0 y0 xi yi : ℝ)
    (hr : 0 < Real.sqrt ((xi - x0) * (xi - x0) + (yi - y0) * (yi - y0))) :
    orbitVelocity Real.sqrt G m0 x0 y0 xi yi
      = (Real.sqrt (G * m0 / Real.sqrt ((xi - x0) * (xi - x0) + (yi - y0) * (yi - y0)))
            * (yi - y0) / Real.sqrt ((xi - x0) * (xi - x0) + (yi - y0) * (yi - y0)),
          -(Real.sqrt (G * m0 / Real.sqrt ((xi - x0) * (xi - x0) + (yi - y0) * (yi - y0)))
            * (xi - x0)) / Real.sqrt ((xi - x0) * (xi - x0) + (yi - y0) * (yi - y0))) ∧
    (orbitVelocity Real.sqrt G m0 x0 y0 xi yi).1 * (xi - x0)
      + (orbitVelocity Real.sqrt G m0 x0 y0 xi yi).2 * (yi - y0) = 0 ∧
    Real.sqrt ((orbitVelocity Real.sqrt G m0 x0 y0 xi yi).1 ^ 2
        + (orbitVelocity Real.sqrt G m0 x0 y0 xi yi).2 ^ 2)
      = Real.sqrt (G * m0 / Real.sqrt ((xi - x0) * (xi - x0) + (yi - y0) * (yi - y0))) := by
  have hsum : 0 ≤ (xi - x0) * (xi - x0) + (yi - y0) * (yi - y0) :=
    add_nonneg (mul_self_nonneg _) (mul_self_nonneg _)
  have hsq := Real.sq_sqrt hsum
  have hne := hr.ne'
  set r := Real.sqrt ((xi - x0) * (xi - x0) + (yi - y0) * (yi - y0)) with hrdef
  set ve := Real.sqrt (G * m0 / r) with hvdef
  have hve : 0 ≤ ve := Real.sqrt_nonneg _
  have hv : orbitVelocity Real.sqrt G m0 x0 y0 xi yi
      = (ve * (yi - y0) / r, ve * -(xi - x0) / r) := rfl
  rw [hv]
  refine ⟨?_, ?_, ?_⟩
  · rw [mul_neg]
  · simp only
    field_simp
    ring
  · simp only
    have : (ve * (yi - y0) / r) ^ 2 + (ve * -(xi - x0) / r) ^ 2 = ve ^ 2 := by
      field_simp
      rw [hsq]
      ring
    rw [this, Real.sqrt_sq hve]

theorem orbit_velocity_circular_witness :
    0 < Real.sqrt (((3 : ℝ) - 0) * (3 - 0) + (4 - 0) * (4 - 0)) ∧
    (orbitVelocity Real.sqrt 1 5 0 0 3 4).1 * ((3 : ℝ) - 0)
      + (orbitVelocity Real.sqrt 1 5 0 0 3 4).2 * ((4 : ℝ) - 0) = 0 :=
  ⟨Real.sqrt_pos.mpr (by norm_num),
    (orbit_velocity_circular 1 5 0 0 3 4 (Real.sqrt_pos.mpr (by norm_num))).2.1⟩

end NBody
